import Mathlib

/-!
Shallow embedding of the csa_lab4 stack-processor toolchain
(src/isa/opcodes.py, src/isa/machine_code.py, src/comp/processor.py)
used to settle the frozen claims about the natural-language spec.

Conventions of the embedding:
- Python ints on the data path are embedded as Nat (all run-time values are
  produced masked, hence non-negative); where Python computes a possibly
  negative intermediate (SUB, vector SUB) we use Int and the Euclidean
  remainder, which coincides with CPython's bitwise-and with 0xFFFFFFFF.
- Python lists used as stacks (append to the end, pop from the end) are
  embedded as Lean lists with the HEAD as the top of the stack.
- The Python dicts (interrupt handlers, port registers) are embedded as
  association lists where an update prepends the new binding and lookup
  takes the first match; this is observationally equivalent to dict
  assignment and dict get.
- Exceptions (ProcessorError) are embedded with EStateM Unit: an error
  carries the state at the raise site, matching Python semantics where
  mutations made before the raise persist.
- The execution log (strings) is not modelled: no claim depends on log text.
-/

namespace VM

set_option linter.unreachableTactic false
set_option linter.unusedTactic false

/-- 2 to the 32, the architectural word modulus. -/
def U32 : Nat := 4294967296

/-- CPython value and 0xFFFFFFFF for a possibly-negative int: the Euclidean
remainder modulo 2 to the 32, returned as a Nat. -/
def wrapI (x : Int) : Nat := (x % (U32 : Int)).toNat

-- isa/opcodes.py: class Opcode(IntEnum) numeric values.
namespace Op

def PUSH : Nat := 0x00
def POP : Nat := 0x01
def DUP : Nat := 0x02
def SWAP : Nat := 0x03
def DROP : Nat := 0x04
def ADD : Nat := 0x10
def SUB : Nat := 0x11
def MUL : Nat := 0x12
def DIV : Nat := 0x13
def MOD : Nat := 0x14
def NEG : Nat := 0x15
def AND : Nat := 0x20
def OR : Nat := 0x21
def XOR : Nat := 0x22
def NOT : Nat := 0x23
def EQ : Nat := 0x30
def NE : Nat := 0x31
def LT : Nat := 0x32
def LE : Nat := 0x33
def GT : Nat := 0x34
def GE : Nat := 0x35
def JMP : Nat := 0x40
def JZ : Nat := 0x41
def JNZ : Nat := 0x42
def CALL : Nat := 0x43
def RET : Nat := 0x44
def LOAD : Nat := 0x50
def STORE : Nat := 0x51
def LOAD_I : Nat := 0x52
def LOADB : Nat := 0x53
def STOREB : Nat := 0x54
def IN : Nat := 0x60
def OUT : Nat := 0x61
def HALT : Nat := 0x70
def NOP : Nat := 0x71
def INT : Nat := 0x72
def IRET : Nat := 0x73
def V_LOAD : Nat := 0x80
def V_STORE : Nat := 0x81
def V_ADD : Nat := 0x82
def V_SUB : Nat := 0x83
def V_MUL : Nat := 0x84
def V_DIV : Nat := 0x85
def V_CMP : Nat := 0x86
def V_DOT : Nat := 0x87
def V_NORM : Nat := 0x88
def V_MAX : Nat := 0x89
def V_MIN : Nat := 0x8A
def V_SUM : Nat := 0x8B
def V_AVG : Nat := 0x8C
def V_SCALE : Nat := 0x8D
def V_COPY : Nat := 0x8E
def V_SET : Nat := 0x8F

end Op

/-- isa/opcodes.py INSTRUCTION_CYCLES.get(Opcode(op), 1): some c when op is a
member of the Opcode enum (every member has an entry, so the default 1 is
dead); none when the Opcode(op) conversion raises ValueError. -/
def instructionCycles (op : Nat) : Option Nat :=
  match op with
  | 0x71 => some 1   -- NOP
  | 0x00 => some 2   -- PUSH
  | 0x01 => some 1   -- POP
  | 0x02 => some 2   -- DUP
  | 0x03 => some 2   -- SWAP
  | 0x04 => some 1   -- DROP
  | 0x10 => some 3   -- ADD
  | 0x11 => some 3   -- SUB
  | 0x12 => some 4   -- MUL
  | 0x13 => some 6   -- DIV
  | 0x14 => some 6   -- MOD
  | 0x15 => some 2   -- NEG
  | 0x20 => some 2   -- AND
  | 0x21 => some 2   -- OR
  | 0x22 => some 2   -- XOR
  | 0x23 => some 2   -- NOT
  | 0x30 => some 3   -- EQ
  | 0x31 => some 3   -- NE
  | 0x32 => some 3   -- LT
  | 0x33 => some 3   -- LE
  | 0x34 => some 3   -- GT
  | 0x35 => some 3   -- GE
  | 0x40 => some 2   -- JMP
  | 0x41 => some 3   -- JZ
  | 0x42 => some 3   -- JNZ
  | 0x43 => some 4   -- CALL
  | 0x44 => some 3   -- RET
  | 0x50 => some 4   -- LOAD
  | 0x51 => some 4   -- STORE
  | 0x52 => some 4   -- LOAD_I
  | 0x53 => some 4   -- LOADB
  | 0x54 => some 4   -- STOREB
  | 0x60 => some 5   -- IN
  | 0x61 => some 5   -- OUT
  | 0x70 => some 1   -- HALT
  | 0x72 => some 8   -- INT
  | 0x73 => some 6   -- IRET
  | 0x80 => some 8   -- V_LOAD
  | 0x81 => some 8   -- V_STORE
  | 0x82 => some 4   -- V_ADD
  | 0x83 => some 4   -- V_SUB
  | 0x84 => some 6   -- V_MUL
  | 0x85 => some 12  -- V_DIV
  | 0x86 => some 4   -- V_CMP
  | 0x87 => some 8   -- V_DOT
  | 0x88 => some 10  -- V_NORM
  | 0x89 => some 4   -- V_MAX
  | 0x8A => some 4   -- V_MIN
  | 0x8B => some 4   -- V_SUM
  | 0x8C => some 6   -- V_AVG
  | 0x8D => some 4   -- V_SCALE
  | 0x8E => some 4   -- V_COPY
  | 0x8F => some 2   -- V_SET
  | _ => none

/-- isa/machine_code.py class Instruction: opcode and operand are plain
Python ints. -/
structure Instruction where
  opcode : Nat
  operand : Nat
deriving DecidableEq, Repr

/-- Instruction.to_bytes: word = (operand shifted left by 8) or opcode,
then struct.pack of the word as 4 little-endian bytes; struct.pack raises
(none) when the word does not fit 32 bits. -/
def Instruction.to_bytes (i : Instruction) : Option (List Nat) :=
  let word := (i.operand <<< 8) ||| i.opcode
  if word < U32 then
    some [word % 256, word / 256 % 256, word / 65536 % 256, word / 16777216 % 256]
  else none

/-- Instruction.from_bytes: struct.unpack of 4 little-endian bytes (none when
the byte count is not 4), opcode = word and 0xFF, operand = (word shifted
right by 8) and 0xFFFFFF. -/
def Instruction.from_bytes (data : List Nat) : Option Instruction :=
  match data with
  | [b0, b1, b2, b3] =>
    let word := b0 + 256 * b1 + 65536 * b2 + 16777216 * b3
    some ⟨word &&& 0xFF, (word >>> 8) &&& 0xFFFFFF⟩
  | _ => none

/-- comp/processor.py class ProcessorState(Enum). -/
inductive ProcessorState where
  | RUNNING
  | HALTED
  | WAITING_FOR_INTERRUPT
  | IN_INTERRUPT
deriving DecidableEq, Repr

/-! ## Vector unit (comp/processor.py class VectorProcessor)

The register file is the list of 8 registers; max_vector_length = 16.
The duplicate legacy class VectorUnit is dead code (the processor field
vector_unit is a VectorProcessor) and is not embedded. -/

/-- VectorProcessor.max_vector_length. -/
def max_vector_length : Nat := 16

/-- VectorProcessor.load_vector: silently ignores an out-of-range register
id, truncates the elements to max_vector_length. -/
def load_vector (regs : List (List Nat)) (reg_id : Nat) (elements : List Nat) :
    List (List Nat) :=
  if reg_id < regs.length then regs.set reg_id (elements.take max_vector_length)
  else regs

/-- VectorProcessor.get_vector: an out-of-range register id reads as the
empty vector. -/
def get_vector (regs : List (List Nat)) (reg_id : Nat) : List Nat :=
  if reg_id < regs.length then regs.getD reg_id [] else []

/-- VectorProcessor.vector_add: elementwise over the common length, each
element masked to 32 bits, result written through load_vector. -/
def vector_add (regs : List (List Nat)) (reg1 reg2 result_reg : Nat) :
    List (List Nat) :=
  load_vector regs result_reg
    (List.zipWith (fun a b => (a + b) % U32) (get_vector regs reg1) (get_vector regs reg2))

/-- VectorProcessor.vector_sub (Python subtraction then and 0xFFFFFFFF). -/
def vector_sub (regs : List (List Nat)) (reg1 reg2 result_reg : Nat) :
    List (List Nat) :=
  load_vector regs result_reg
    (List.zipWith (fun a b => wrapI ((a : Int) - (b : Int)))
      (get_vector regs reg1) (get_vector regs reg2))

/-- VectorProcessor.vector_mul. -/
def vector_mul (regs : List (List Nat)) (reg1 reg2 result_reg : Nat) :
    List (List Nat) :=
  load_vector regs result_reg
    (List.zipWith (fun a b => (a * b) % U32) (get_vector regs reg1) (get_vector regs reg2))

/-- VectorProcessor.vector_dot: accumulated products masked once at the end. -/
def vector_dot (regs : List (List Nat)) (reg1 reg2 : Nat) : Nat :=
  (List.zipWith (fun a b => a * b) (get_vector regs reg1) (get_vector regs reg2)).sum % U32

/-- VectorProcessor.vector_norm. The Python source computes the float square
root (sum_squares to the power 0.5) and truncates; it is embedded as the
exact integer square root, which agrees on all inputs where the float is
exact. No claim depends on the value. -/
def vector_norm (regs : List (List Nat)) (reg : Nat) : Nat :=
  Nat.sqrt ((get_vector regs reg).map (fun x => x * x)).sum % U32

/-- VectorProcessor.vector_max: Python max of the list, 0 for the empty
register. -/
def vector_max (regs : List (List Nat)) (reg : Nat) : Nat :=
  match get_vector regs reg with
  | [] => 0
  | h :: t => t.foldl Nat.max h

/-- VectorProcessor.vector_min. -/
def vector_min (regs : List (List Nat)) (reg : Nat) : Nat :=
  match get_vector regs reg with
  | [] => 0
  | h :: t => t.foldl Nat.min h

/-- VectorProcessor.vector_sum. -/
def vector_sum (regs : List (List Nat)) (reg : Nat) : Nat :=
  (get_vector regs reg).sum % U32

/-- VectorProcessor.vector_avg: floor average, 0 for the empty register. -/
def vector_avg (regs : List (List Nat)) (reg : Nat) : Nat :=
  let vec := get_vector regs reg
  if vec = [] then 0 else vec.sum / vec.length % U32

/-- VectorProcessor.vector_scale. -/
def vector_scale (regs : List (List Nat)) (reg scalar result_reg : Nat) :
    List (List Nat) :=
  load_vector regs result_reg ((get_vector regs reg).map (fun x => x * scalar % U32))

/-- VectorProcessor.vector_copy. -/
def vector_copy (regs : List (List Nat)) (src_reg dst_reg : Nat) :
    List (List Nat) :=
  load_vector regs dst_reg (get_vector regs src_reg)

/-- VectorProcessor.vector_set: out-of-range register id or element index is
a silent no-op; the stored element is masked. -/
def vector_set (regs : List (List Nat)) (reg index value : Nat) :
    List (List Nat) :=
  if reg < regs.length then
    let vec := regs.getD reg []
    if index < vec.length then regs.set reg (vec.set index (value % U32))
    else regs
  else regs

/-- VectorProcessor.vector_get: out-of-range register id or element index
reads as 0. -/
def vector_get (regs : List (List Nat)) (reg index : Nat) : Nat :=
  if reg < regs.length then
    let vec := regs.getD reg []
    if index < vec.length then vec.getD index 0 else 0
  else 0

/-! ## I/O controller (comp/processor.py class IOController)

Only read_port and write_port are state functions of the controller that the
claims mention; the scheduled-input update loop is embedded below as
ioUpdate over the schedule list, since the processor step only consumes its
returned events. -/

/-- The port-register map of IOController (self.ports) together with its
buffers. -/
structure IOCtl where
  input_buffer : List Nat
  output_buffer : List Nat
  ports : List (Nat × Nat)
deriving DecidableEq, Repr

/-- Python dict get on the association list (first binding wins). -/
def dictGet (m : List (Nat × Nat)) (k : Nat) : Option Nat :=
  (m.find? (fun kv => kv.1 = k)).map (fun kv => kv.2)

/-- Python dict assignment: the new binding shadows any older one. -/
def dictSet (m : List (Nat × Nat)) (k v : Nat) : List (Nat × Nat) :=
  (k, v) :: m

/-- IOController.read_port: port 0 dequeues from the input buffer (0 when
empty); any other port returns the registered value or 0. -/
def read_port (io : IOCtl) (port : Nat) : Nat × IOCtl :=
  if port = 0 then
    match io.input_buffer with
    | [] => (0, io)
    | v :: rest => (v, { io with input_buffer := rest })
  else
    match dictGet io.ports port with
    | some v => (v, io)
    | none => (0, io)

/-- IOController.write_port: port 1 appends to the output buffer; any other
port stores into the port-register map. -/
def write_port (io : IOCtl) (port value : Nat) : IOCtl :=
  if port = 1 then { io with output_buffer := io.output_buffer ++ [value] }
  else { io with ports := dictSet io.ports port value }

/-- IOController.update: drain every scheduled event whose cycle is at or
before the current cycle (the schedule is kept sorted by schedule_input);
each drained INPUT_READY event (type 0) is reported. Returns the remaining
schedule and the drained (vector, data) events in order. -/
def ioUpdate (sched : List (Nat × Nat × Nat)) (cycle : Nat) :
    List (Nat × Nat × Nat) × List (Nat × Nat) :=
  match sched with
  | [] => ([], [])
  | (c, t, d) :: rest =>
    if c ≤ cycle then
      let r := ioUpdate rest cycle
      (r.1, (if t = 0 then [((0 : Nat), d)] else []) ++ r.2)
    else ((c, t, d) :: rest, [])

/-! ## Stack processor (comp/processor.py class StackProcessor)

The processor instance state. The IOController sub-object contributes only
its interrupt_schedule to processor behaviour (the processor IN and OUT
branches use the processor's own buffers, never read_port or write_port),
so only the schedule is carried. -/

structure Proc where
  instruction_memory : List Instruction
  data_memory : List Nat
  stack : List Nat
  stack_size : Nat
  call_stack : List Nat
  pc : Nat
  state : ProcessorState
  cycle_count : Nat
  instruction_count : Nat
  input_buffer : List Nat
  output_buffer : List Nat
  vector_registers : List (List Nat)
  current_instruction : Option Instruction
  remaining_cycles : Nat
  io_schedule : List (Nat × Nat × Nat)
  interrupts_enabled : Bool
  in_interrupt : Bool
  interrupt_handlers : List (Nat × Nat)
  pending_interrupts : List (Nat × Nat)
deriving DecidableEq, Repr

/-- StackProcessor.__init__ with a loaded program and data image:
load_program sets the instruction memory and pc 0; everything else is the
constructor state. -/
def initProc (program : List Instruction) (data : List Nat) : Proc where
  instruction_memory := program
  data_memory := data
  stack := []
  stack_size := 1024
  call_stack := []
  pc := 0
  state := ProcessorState.RUNNING
  cycle_count := 0
  instruction_count := 0
  input_buffer := []
  output_buffer := []
  vector_registers := [[], [], [], [], [], [], [], []]
  current_instruction := none
  remaining_cycles := 0
  io_schedule := []
  interrupts_enabled := false
  in_interrupt := false
  interrupt_handlers := []
  pending_interrupts := []

/-- The execution monad: state plus a ProcessorError exception. An error
result keeps the state at the raise site (Python mutations before a raise
persist). -/
abbrev PM (α : Type) := EStateM Unit Proc α

/-- StackProcessor.push: overflow check against stack_size, then append the
value masked to 32 bits. -/
def push (value : Nat) : PM Unit := do
  let p ← get
  if p.stack.length ≥ p.stack_size then throw ()
  set { p with stack := (value % U32) :: p.stack }

/-- StackProcessor.pop: underflow on the empty stack. -/
def pop : PM Nat := do
  let p ← get
  match p.stack with
  | [] => throw ()
  | v :: rest =>
    set { p with stack := rest }
    pure v

/-- The little-endian word at addr (struct.unpack of 4 bytes). -/
def wordAt (mem : List Nat) (addr : Nat) : Nat :=
  mem.getD addr 0 + 256 * mem.getD (addr + 1) 0 + 65536 * mem.getD (addr + 2) 0 +
    16777216 * mem.getD (addr + 3) 0

/-- struct.pack of the word as 4 little-endian bytes at addr. -/
def putWordAt (mem : List Nat) (addr value : Nat) : List Nat :=
  ((((mem.set addr (value % 256)).set (addr + 1) (value / 256 % 256)).set
      (addr + 2) (value / 65536 % 256)).set (addr + 3) (value / 16777216 % 256))

/-- StackProcessor.read_memory_word: bounds check then little-endian read. -/
def read_memory_word (address : Nat) : PM Nat := do
  let p ← get
  if address + 4 > p.data_memory.length then throw ()
  pure (wordAt p.data_memory address)

/-- StackProcessor.write_memory_word. -/
def write_memory_word (address value : Nat) : PM Unit := do
  let p ← get
  if address + 4 > p.data_memory.length then throw ()
  set { p with data_memory := putWordAt p.data_memory address value }

/-- The decimal ASCII codes of n, as produced by str(n) in the OUT branches;
fuel-structured division loop (32 digits cover every 32-bit word). -/
def decDigitsAux : Nat → Nat → List Nat
  | 0, _ => []
  | fuel + 1, n =>
    if n < 10 then [48 + n]
    else decDigitsAux fuel (n / 10) ++ [48 + n % 10]

/-- See decDigitsAux. -/
def decimalAscii (n : Nat) : List Nat :=
  decDigitsAux 32 n

/-- The while loop of the OUT port-1 branch: bytes from addr up to (not
including) the first NUL byte or the end of data memory. Fuel-structured;
mem.length fuel always suffices. -/
def readCStringAux : Nat → List Nat → Nat → List Nat
  | 0, _, _ => []
  | fuel + 1, mem, addr =>
    if addr < mem.length then
      let b := mem.getD addr 0
      if b = 0 then [] else b :: readCStringAux fuel mem (addr + 1)
    else []

/-- See readCStringAux. -/
def readCString (mem : List Nat) (addr : Nat) : List Nat :=
  readCStringAux mem.length mem addr

/-- The OUT branch of StackProcessor.execute_instruction: pop the value,
then route on the port operand (1 C-string or decimal fallback, 0 decimal,
2 low byte, any other port the raw word). -/
def executeOUT (operand : Nat) : PM Unit := do
  let value ← pop
  let p ← get
  if operand = 1 then
    if value < p.data_memory.length then
      set { p with output_buffer := p.output_buffer ++ readCString p.data_memory value }
    else
      set { p with output_buffer := p.output_buffer ++ decimalAscii value }
  else if operand = 0 then
    set { p with output_buffer := p.output_buffer ++ decimalAscii value }
  else if operand = 2 then
    set { p with output_buffer := p.output_buffer ++ [value % 256] }
  else
    set { p with output_buffer := p.output_buffer ++ [value] }

/-- The nested self.execute_instruction(Instruction(Opcode.OUT, 1)) call made
by handle_software_interrupt for vector 0: the inner call has its own
try/except (an error inside it halts and is swallowed) and its own
fall-through PC increment; its boolean result is discarded by the caller. -/
def nestedExecOut1 (p : Proc) : Proc :=
  match executeOUT 1 p with
  | .ok _ q => { q with pc := q.pc + 1 }
  | .error _ q => { q with state := ProcessorState.HALTED }

/-- StackProcessor.handle_software_interrupt. -/
def handle_software_interrupt (vector : Nat) : PM Unit := do
  if vector = 0x80 then
    let p ← get
    if p.stack.length ≥ 2 then
      let handler_addr ← pop
      let irq_vec ← pop
      modify fun q =>
        { q with interrupt_handlers := dictSet q.interrupt_handlers irq_vec handler_addr }
    else throw ()
  else if vector = 0x81 then
    modify fun q => { q with interrupts_enabled := true }
  else if vector = 0x82 then
    modify fun q => { q with interrupts_enabled := false }
  else if vector = 0 then
    let p ← get
    if p.stack ≠ [] then
      let _ ← pop
      modify fun q => nestedExecOut1 q
  else if vector = 1 then
    push 0

/-- The V_LOAD element loop: words at base, base+4, ... while they fit in
data memory, at most count of them (the break stops at the first word that
does not fit). -/
def vloadElems (mem : List Nat) (base : Nat) : Nat → Nat → List Nat
  | 0, _ => []
  | count + 1, idx =>
    if base + idx * 4 + 3 < mem.length then
      wordAt mem (base + idx * 4) :: vloadElems mem base count (idx + 1)
    else []

/-- The V_STORE element loop: write each register element at address + 4i
while the word fits in data memory, breaking at the first that does not. -/
def vstoreWords (mem : List Nat) (address : Nat) : List Nat → Nat → List Nat
  | [], _ => mem
  | v :: rest, idx =>
    if address + idx * 4 + 3 < mem.length then
      vstoreWords (putWordAt mem (address + idx * 4) v) address rest (idx + 1)
    else mem

/-! ## The try block of StackProcessor.execute_instruction

Each elif branch of the opcode dispatch chain is a named definition; execBody
is the chain itself. Opcodes declared in the enum but not dispatched (DROP,
NEG, XOR, NOP, LOAD_I, V_DIV, V_CMP) and undeclared opcode bytes both reach
the final else and raise ProcessorError. -/

/-- How control leaves the try block: an explicit return False (halt), an
explicit return True before the PC increment (jumped), or falling off the
dispatch chain to the shared increment. -/
inductive ExecOutcome where
  | halt
  | jumped
  | fallthrough
deriving DecidableEq, Repr

def execHALT : PM ExecOutcome := do
  modify fun p => { p with state := ProcessorState.HALTED }
  pure ExecOutcome.halt

def execPUSH (operand : Nat) : PM ExecOutcome := do
  push operand
  pure ExecOutcome.fallthrough

def execPOP : PM ExecOutcome := do
  let _ ← pop
  pure ExecOutcome.fallthrough

def execDUP : PM ExecOutcome := do
  let p ← get
  match p.stack with
  | value :: _ => do
    push value
    pure ExecOutcome.fallthrough
  | [] => throw ()

def execSWAP : PM ExecOutcome := do
  let p ← get
  if p.stack.length ≥ 2 then
    let a ← pop
    let b ← pop
    push a
    push b
    pure ExecOutcome.fallthrough
  else throw ()

def execADD : PM ExecOutcome := do
  let b ← pop
  let a ← pop
  push ((a + b) % U32)
  pure ExecOutcome.fallthrough

def execSUB : PM ExecOutcome := do
  let b ← pop
  let a ← pop
  push (wrapI ((a : Int) - (b : Int)))
  pure ExecOutcome.fallthrough

def execMUL : PM ExecOutcome := do
  let b ← pop
  let a ← pop
  push (a * b % U32)
  pure ExecOutcome.fallthrough

def execDIV : PM ExecOutcome := do
  let b ← pop
  let a ← pop
  if b = 0 then throw ()
  push (a / b % U32)
  pure ExecOutcome.fallthrough

def execMOD : PM ExecOutcome := do
  let b ← pop
  let a ← pop
  if b = 0 then throw ()
  push (a % b % U32)
  pure ExecOutcome.fallthrough

def execAND : PM ExecOutcome := do
  let b ← pop
  let a ← pop
  push (a &&& b)
  pure ExecOutcome.fallthrough

def execOR : PM ExecOutcome := do
  let b ← pop
  let a ← pop
  push (a ||| b)
  pure ExecOutcome.fallthrough

/-- Python bitwise complement then and 0xFFFFFFFF. -/
def execNOT : PM ExecOutcome := do
  let a ← pop
  push (wrapI (-(a : Int) - 1))
  pure ExecOutcome.fallthrough

def execEQ : PM ExecOutcome := do
  let b ← pop
  let a ← pop
  push (if a = b then 1 else 0)
  pure ExecOutcome.fallthrough

def execNE : PM ExecOutcome := do
  let b ← pop
  let a ← pop
  push (if a ≠ b then 1 else 0)
  pure ExecOutcome.fallthrough

def execLT : PM ExecOutcome := do
  let b ← pop
  let a ← pop
  push (if a < b then 1 else 0)
  pure ExecOutcome.fallthrough

def execLE : PM ExecOutcome := do
  let b ← pop
  let a ← pop
  push (if a ≤ b then 1 else 0)
  pure ExecOutcome.fallthrough

def execGT : PM ExecOutcome := do
  let b ← pop
  let a ← pop
  push (if a > b then 1 else 0)
  pure ExecOutcome.fallthrough

def execGE : PM ExecOutcome := do
  let b ← pop
  let a ← pop
  push (if a ≥ b then 1 else 0)
  pure ExecOutcome.fallthrough

def execJMP (operand : Nat) : PM ExecOutcome := do
  modify fun p => { p with pc := operand }
  pure ExecOutcome.jumped

def execJZ (operand : Nat) : PM ExecOutcome := do
  let condition ← pop
  if condition = 0 then
    modify fun p => { p with pc := operand }
    pure ExecOutcome.jumped
  else pure ExecOutcome.fallthrough

def execJNZ (operand : Nat) : PM ExecOutcome := do
  let condition ← pop
  if condition ≠ 0 then
    modify fun p => { p with pc := operand }
    pure ExecOutcome.jumped
  else pure ExecOutcome.fallthrough

def execCALL (operand : Nat) : PM ExecOutcome := do
  modify fun p => { p with call_stack := (p.pc + 1) :: p.call_stack, pc := operand }
  pure ExecOutcome.jumped

/-- RET with an empty call stack halts the program, not an error. -/
def execRET : PM ExecOutcome := do
  let p ← get
  match p.call_stack with
  | r :: rest => do
    set { p with call_stack := rest, pc := r }
    pure ExecOutcome.jumped
  | [] => do
    set { p with state := ProcessorState.HALTED }
    pure ExecOutcome.halt

def execLOAD : PM ExecOutcome := do
  let address ← pop
  let value ← read_memory_word address
  push value
  pure ExecOutcome.fallthrough

def execLOADB : PM ExecOutcome := do
  let address ← pop
  let p ← get
  if address ≥ p.data_memory.length then throw ()
  push (p.data_memory.getD address 0)
  pure ExecOutcome.fallthrough

def execSTORE : PM ExecOutcome := do
  let address ← pop
  let value ← pop
  write_memory_word address value
  pure ExecOutcome.fallthrough

def execSTOREB : PM ExecOutcome := do
  let address ← pop
  let v ← pop
  let p ← get
  if address ≥ p.data_memory.length then throw ()
  set { p with data_memory := p.data_memory.set address (v % 256) }
  pure ExecOutcome.fallthrough

/-- The port operand of IN is ignored by the source: it always reads the
processor input buffer, pushing 0 when the buffer is empty. -/
def execIN : PM ExecOutcome := do
  let p ← get
  match p.input_buffer with
  | value :: rest => do
    set { p with input_buffer := rest }
    push value
    pure ExecOutcome.fallthrough
  | [] => do
    push 0
    pure ExecOutcome.fallthrough

def execOUT (operand : Nat) : PM ExecOutcome := do
  executeOUT operand
  pure ExecOutcome.fallthrough

def execINT (operand : Nat) : PM ExecOutcome := do
  handle_software_interrupt operand
  pure ExecOutcome.fallthrough

/-- IRET with empty call stack raises, unlike RET. -/
def execIRET : PM ExecOutcome := do
  let p ← get
  match p.call_stack with
  | r :: rest => do
    set { p with call_stack := rest, pc := r, in_interrupt := false }
    pure ExecOutcome.jumped
  | [] => throw ()

def execVADD : PM ExecOutcome := do
  let p ← get
  if p.stack.length ≥ 3 then
    let result_reg ← pop
    let reg2 ← pop
    let reg1 ← pop
    modify fun q =>
      { q with vector_registers := vector_add q.vector_registers reg1 reg2 result_reg }
    pure ExecOutcome.fallthrough
  else throw ()

def execVSUB : PM ExecOutcome := do
  let p ← get
  if p.stack.length ≥ 3 then
    let result_reg ← pop
    let reg2 ← pop
    let reg1 ← pop
    modify fun q =>
      { q with vector_registers := vector_sub q.vector_registers reg1 reg2 result_reg }
    pure ExecOutcome.fallthrough
  else throw ()

def execVMUL : PM ExecOutcome := do
  let p ← get
  if p.stack.length ≥ 3 then
    let result_reg ← pop
    let reg2 ← pop
    let reg1 ← pop
    modify fun q =>
      { q with vector_registers := vector_mul q.vector_registers reg1 reg2 result_reg }
    pure ExecOutcome.fallthrough
  else throw ()

def execVDOT : PM ExecOutcome := do
  let p ← get
  if p.stack.length ≥ 2 then
    let reg2 ← pop
    let reg1 ← pop
    let q ← get
    push (vector_dot q.vector_registers reg1 reg2)
    pure ExecOutcome.fallthrough
  else throw ()

def execVNORM : PM ExecOutcome := do
  let p ← get
  if p.stack.length ≥ 1 then
    let reg ← pop
    let q ← get
    push (vector_norm q.vector_registers reg)
    pure ExecOutcome.fallthrough
  else throw ()

def execVMAX : PM ExecOutcome := do
  let p ← get
  if p.stack.length ≥ 1 then
    let reg ← pop
    let q ← get
    push (vector_max q.vector_registers reg)
    pure ExecOutcome.fallthrough
  else throw ()

def execVMIN : PM ExecOutcome := do
  let p ← get
  if p.stack.length ≥ 1 then
    let reg ← pop
    let q ← get
    push (vector_min q.vector_registers reg)
    pure ExecOutcome.fallthrough
  else throw ()

def execVSUM : PM ExecOutcome := do
  let p ← get
  if p.stack.length ≥ 1 then
    let reg ← pop
    let q ← get
    push (vector_sum q.vector_registers reg)
    pure ExecOutcome.fallthrough
  else throw ()

def execVAVG : PM ExecOutcome := do
  let p ← get
  if p.stack.length ≥ 1 then
    let reg ← pop
    let q ← get
    push (vector_avg q.vector_registers reg)
    pure ExecOutcome.fallthrough
  else throw ()

def execVSCALE : PM ExecOutcome := do
  let p ← get
  if p.stack.length ≥ 3 then
    let result_reg ← pop
    let scalar ← pop
    let reg ← pop
    modify fun q =>
      { q with vector_registers := vector_scale q.vector_registers reg scalar result_reg }
    pure ExecOutcome.fallthrough
  else throw ()

def execVCOPY : PM ExecOutcome := do
  let p ← get
  if p.stack.length ≥ 2 then
    let dst_reg ← pop
    let src_reg ← pop
    modify fun q =>
      { q with vector_registers := vector_copy q.vector_registers src_reg dst_reg }
    pure ExecOutcome.fallthrough
  else throw ()

/-- V_SET carries the element index in the operand field. -/
def execVSET (operand : Nat) : PM ExecOutcome := do
  let p ← get
  if p.stack.length ≥ 2 then
    let value ← pop
    let reg ← pop
    modify fun q =>
      { q with vector_registers := vector_set q.vector_registers reg operand value }
    pure ExecOutcome.fallthrough
  else throw ()

def execVLOAD : PM ExecOutcome := do
  let p ← get
  if p.stack.length ≥ 3 then
    let reg ← pop
    let length ← pop
    let address ← pop
    let q ← get
    let elements := vloadElems q.data_memory (address + 4) (min length max_vector_length) 0
    modify fun q2 => { q2 with vector_registers := load_vector q2.vector_registers reg elements }
    pure ExecOutcome.fallthrough
  else throw ()

def execVSTORE : PM ExecOutcome := do
  let p ← get
  if p.stack.length ≥ 2 then
    let reg ← pop
    let address ← pop
    modify fun q =>
      { q with data_memory := vstoreWords q.data_memory address (get_vector q.vector_registers reg) 0 }
    pure ExecOutcome.fallthrough
  else throw ()

/-- The dispatch chain of the try block, branch per opcode byte; the default
branch is the final else raising ProcessorError for unknown instructions. -/
def execBody (i : Instruction) (p : Proc) : EStateM.Result Unit Proc ExecOutcome :=
  match i.opcode with
  | 0x70 => execHALT p
  | 0x00 => execPUSH i.operand p
  | 0x01 => execPOP p
  | 0x02 => execDUP p
  | 0x03 => execSWAP p
  | 0x10 => execADD p
  | 0x11 => execSUB p
  | 0x12 => execMUL p
  | 0x13 => execDIV p
  | 0x14 => execMOD p
  | 0x20 => execAND p
  | 0x21 => execOR p
  | 0x23 => execNOT p
  | 0x30 => execEQ p
  | 0x31 => execNE p
  | 0x32 => execLT p
  | 0x33 => execLE p
  | 0x34 => execGT p
  | 0x35 => execGE p
  | 0x40 => execJMP i.operand p
  | 0x41 => execJZ i.operand p
  | 0x42 => execJNZ i.operand p
  | 0x43 => execCALL i.operand p
  | 0x44 => execRET p
  | 0x50 => execLOAD p
  | 0x53 => execLOADB p
  | 0x51 => execSTORE p
  | 0x54 => execSTOREB p
  | 0x60 => execIN p
  | 0x61 => execOUT i.operand p
  | 0x72 => execINT i.operand p
  | 0x73 => execIRET p
  | 0x82 => execVADD p
  | 0x83 => execVSUB p
  | 0x84 => execVMUL p
  | 0x87 => execVDOT p
  | 0x88 => execVNORM p
  | 0x89 => execVMAX p
  | 0x8A => execVMIN p
  | 0x8B => execVSUM p
  | 0x8C => execVAVG p
  | 0x8D => execVSCALE p
  | 0x8E => execVCOPY p
  | 0x8F => execVSET i.operand p
  | 0x80 => execVLOAD p
  | 0x81 => execVSTORE p
  | _ => EStateM.Result.error () p

/-- StackProcessor.execute_instruction: run the try block; a ProcessorError
is caught here and moves the state to HALTED with False returned; on
fall-through the shared PC increment runs. -/
def execute_instruction (i : Instruction) (p : Proc) : Proc × Bool :=
  match execBody i p with
  | EStateM.Result.ok ExecOutcome.halt q => (q, false)
  | EStateM.Result.ok ExecOutcome.jumped q => (q, true)
  | EStateM.Result.ok ExecOutcome.fallthrough q => ({ q with pc := q.pc + 1 }, true)
  | EStateM.Result.error _ q => ({ q with state := ProcessorState.HALTED }, false)

/-- The between-instructions interrupt entry of StackProcessor.step: when
enabled, outside a handler and with a pending request, the oldest (vector,
data) pair is popped; with an installed handler the return address is pushed
on the call stack, PC moves to the handler and in_interrupt is set; with no
handler the popped request is discarded. -/
def dispatchInterrupt (p : Proc) : Proc :=
  if p.interrupts_enabled && !p.in_interrupt then
    match p.pending_interrupts with
    | [] => p
    | (vector, _) :: rest =>
      match dictGet p.interrupt_handlers vector with
      | some handler =>
        { p with pending_interrupts := rest, call_stack := p.pc :: p.call_stack,
                 pc := handler, in_interrupt := true }
      | none => { p with pending_interrupts := rest }
  else p

/-- The tail of StackProcessor.step shared by both branches: decrement the
remaining cycles, advance the cycle counter, and when the active instruction
reaches its last cycle commit its semantics and report it as completed (the
third component lists the instruction completed on this tick, if any). -/
def tick (p : Proc) : Proc × Bool × List Instruction :=
  let p1 := { p with remaining_cycles := p.remaining_cycles - 1,
                     cycle_count := p.cycle_count + 1 }
  match p1.current_instruction with
  | some instruction =>
    if p1.remaining_cycles = 0 then
      let p2 := { p1 with current_instruction := none, remaining_cycles := 0 }
      let r := execute_instruction instruction p2
      ({ r.1 with instruction_count := r.1.instruction_count + 1 }, r.2, [instruction])
    else (p1, true, [])
  | none => (p1, true, [])

/-- The opening of StackProcessor.step: update the I/O controller for this
cycle and take over the drained INPUT_READY events into the processor input
buffer and the pending-interrupt queue. -/
def ioPhase (p : Proc) : Proc :=
  { p with io_schedule := (ioUpdate p.io_schedule p.cycle_count).1,
           input_buffer := p.input_buffer ++
             ((ioUpdate p.io_schedule p.cycle_count).2).map (fun e : Nat × Nat => e.2),
           pending_interrupts := p.pending_interrupts ++ (ioUpdate p.io_schedule p.cycle_count).2 }

/-- StackProcessor.step, instrumented with the instruction completed on this
tick. The none result embeds a Python exception escaping step to the host:
an IndexError fetching past the end of instruction memory (only reachable
through a handler address out of range) or a ValueError converting an
undeclared opcode byte in the cycle-table lookup. -/
def stepT (p : Proc) : Option (Proc × Bool × List Instruction) :=
  if p.state = ProcessorState.HALTED then some (p, false, [])
  else
    let p0 := ioPhase p
    match p0.current_instruction with
    | none =>
      if p0.pc ≥ p0.instruction_memory.length then
        some ({ p0 with state := ProcessorState.HALTED }, false, [])
      else
        let p1 := dispatchInterrupt p0
        match p1.instruction_memory.get? p1.pc with
        | none => none
        | some instr =>
          match instructionCycles instr.opcode with
          | none => none
          | some cost =>
            some (tick { p1 with current_instruction := some instr, remaining_cycles := cost })
    | some _ => some (tick p0)

/-- StackProcessor.step as the host sees it. -/
def step (p : Proc) : Option (Proc × Bool) :=
  (stepT p).map fun r => (r.1, r.2.1)

/-- The while loop of StackProcessor.run, instrumented with the list of
completed instructions. Every step that returns True advances cycle_count by
exactly one, so the cycle-budget guard of the source loop is the same as
counting max_cycles loop iterations. -/
def runLoopT (fuel : Nat) (p : Proc) (acc : List Instruction) :
    Option (Proc × List Instruction) :=
  match fuel with
  | 0 => some (p, acc)
  | f + 1 =>
    match stepT p with
    | none => none
    | some (q, cont, tr) =>
      if cont then runLoopT f q (acc ++ tr) else some (q, acc ++ tr)

/-- The dict returned by StackProcessor.run (the execution_log entry is not
modelled). -/
structure RunResult where
  state : ProcessorState
  instructions_executed : Nat
  cycles_executed : Nat
  final_pc : Nat
  stack_size : Nat
  output : List Nat
deriving DecidableEq, Repr

/-- StackProcessor.run, instrumented with the completed-instruction list;
none embeds a Python exception reaching the host. -/
def runT (p : Proc) (max_cycles : Nat) :
    Option (RunResult × Proc × List Instruction) :=
  match runLoopT max_cycles p [] with
  | none => none
  | some (q, tr) =>
    some ({ state := q.state,
            instructions_executed := q.instruction_count,
            cycles_executed := q.cycle_count - p.cycle_count,
            final_pc := q.pc,
            stack_size := q.stack.length,
            output := q.output_buffer }, q, tr)

/-- StackProcessor.run as the host sees it. -/
def run (p : Proc) (max_cycles : Nat) : Option RunResult :=
  (runT p max_cycles).map fun r => r.1


/-! ## Proof infrastructure

Application lemmas evaluating the execution monad, the state component of a
result, and the frame of state fields that no instruction semantics touches.
-/

@[simp] lemma PM_get_apply (p : Proc) : (get : PM Proc) p = EStateM.Result.ok p p := rfl

@[simp] lemma PM_set_apply (q p : Proc) :
    (set q : PM PUnit) p = EStateM.Result.ok PUnit.unit q := rfl

@[simp] lemma PM_modify_apply (f : Proc → Proc) (p : Proc) :
    (modify f : PM PUnit) p = EStateM.Result.ok PUnit.unit (f p) := rfl

@[simp] lemma PM_throw_apply {α : Type} (p : Proc) :
    (throw () : PM α) p = EStateM.Result.error () p := rfl

@[simp] lemma PM_pure_apply {α : Type} (a : α) (p : Proc) :
    (pure a : PM α) p = EStateM.Result.ok a p := rfl

@[simp] lemma PM_bind_apply {α β : Type} (m : PM α) (k : α → PM β) (p : Proc) :
    (m >>= k) p = match m p with
      | EStateM.Result.ok a q => k a q
      | EStateM.Result.error e q => EStateM.Result.error e q := by
  show EStateM.bind m k p = _
  unfold EStateM.bind
  cases hm : m p <;> simp [hm]

@[simp] lemma PM_map_apply {α β : Type} (f : α → β) (m : PM α) (p : Proc) :
    (f <$> m) p = match m p with
      | EStateM.Result.ok a q => EStateM.Result.ok (f a) q
      | EStateM.Result.error e q => EStateM.Result.error e q := by
  show EStateM.map f m p = _
  unfold EStateM.map
  cases hm : m p <;> simp [hm]

@[simp] lemma PM_seqRight_apply {α β : Type} (m : PM α) (k : Unit → PM β) (p : Proc) :
    (m *> k ()) p = match m p with
      | EStateM.Result.ok _ q => k () q
      | EStateM.Result.error e q => EStateM.Result.error e q := by
  show EStateM.seqRight m k p = _
  unfold EStateM.seqRight
  cases hm : m p <;> simp [hm]

@[simp] lemma push_apply (v : Nat) (p : Proc) :
    push v p = if p.stack.length ≥ p.stack_size then EStateM.Result.error () p
      else EStateM.Result.ok PUnit.unit { p with stack := (v % U32) :: p.stack } := by
  unfold push
  by_cases h : p.stack.length ≥ p.stack_size <;>
    simp [h, bind, EStateM.bind, get, getThe, MonadStateOf.get,
      EStateM.get, set, MonadStateOf.set, EStateM.set, throw, throwThe,
      MonadExceptOf.throw, EStateM.throw]

@[simp] lemma pop_apply (p : Proc) :
    pop p = match p.stack with
      | [] => EStateM.Result.error () p
      | v :: rest => EStateM.Result.ok v { p with stack := rest } := by
  unfold pop
  rcases hs : p.stack <;> simp [hs, bind, EStateM.bind, get, getThe,
    MonadStateOf.get, EStateM.get, set, MonadStateOf.set, EStateM.set, throw,
    throwThe, MonadExceptOf.throw, EStateM.throw]

/-- The state carried by a result, whether ok or error. -/
def stateOf {α : Type} : EStateM.Result Unit Proc α → Proc
  | EStateM.Result.ok _ q => q
  | EStateM.Result.error _ q => q

/-- The fields of the processor state that no branch of the
execute_instruction dispatch chain ever modifies. -/
def frameOK (p q : Proc) : Prop :=
  q.pending_interrupts = p.pending_interrupts ∧ q.io_schedule = p.io_schedule ∧
  q.cycle_count = p.cycle_count ∧ q.current_instruction = p.current_instruction ∧
  q.remaining_cycles = p.remaining_cycles ∧ q.stack_size = p.stack_size ∧
  q.instruction_memory = p.instruction_memory

lemma frameOK_refl (p : Proc) : frameOK p p := by
  simp [frameOK]

lemma wrapI_lt (x : Int) : wrapI x < U32 := by
  unfold wrapI U32
  have h1 : (0 : Int) < 4294967296 := by norm_num
  have h2 := Int.emod_lt_of_pos x h1
  have h3 := Int.emod_nonneg x (by norm_num : (4294967296 : Int) ≠ 0)
  omega

lemma wrapI_mod (x : Int) : wrapI x % U32 = wrapI x :=
  Nat.mod_eq_of_lt (wrapI_lt x)

lemma getD_set_self (l : List (List Nat)) (i : Nat) (x : List Nat) (h : i < l.length) :
    (l.set i x).getD i [] = x := by
  simp [List.getD_eq_getElem?_getD, List.getElem?_set_self', List.getElem?_eq_getElem, h]

lemma frame_execHALT (p : Proc) : frameOK p (stateOf (execHALT p)) := by
  unfold execHALT
  all_goals try simp [frameOK, stateOf]
  all_goals try (split_ifs <;> simp_all [frameOK, stateOf])
  all_goals try (split_ifs <;> simp_all [frameOK, stateOf])

lemma frame_execPUSH (operand : Nat) (p : Proc) : frameOK p (stateOf (execPUSH operand p)) := by
  unfold execPUSH
  all_goals try simp [frameOK, stateOf]
  all_goals try (split_ifs <;> simp_all [frameOK, stateOf])
  all_goals try (split_ifs <;> simp_all [frameOK, stateOf])

lemma frame_execPOP (p : Proc) : frameOK p (stateOf (execPOP p)) := by
  unfold execPOP
  rcases hs : p.stack with _ | ⟨x1, rest⟩
  all_goals try simp [hs, frameOK, stateOf]
  all_goals try (split_ifs <;> simp_all [frameOK, stateOf])
  all_goals try (split_ifs <;> simp_all [frameOK, stateOf])

lemma frame_execDUP (p : Proc) : frameOK p (stateOf (execDUP p)) := by
  unfold execDUP
  rcases hs : p.stack with _ | ⟨x1, rest⟩
  all_goals try simp [hs, frameOK, stateOf]
  all_goals try (split_ifs <;> simp_all [frameOK, stateOf])
  all_goals try (split_ifs <;> simp_all [frameOK, stateOf])

lemma frame_execSWAP (p : Proc) : frameOK p (stateOf (execSWAP p)) := by
  unfold execSWAP
  rcases hs : p.stack with _ | ⟨x1, _ | ⟨x2, rest⟩⟩
  all_goals try simp [hs, frameOK, stateOf]
  all_goals try (split_ifs <;> simp_all [frameOK, stateOf])
  all_goals try (split_ifs <;> simp_all [frameOK, stateOf])

lemma frame_execADD (p : Proc) : frameOK p (stateOf (execADD p)) := by
  unfold execADD
  rcases hs : p.stack with _ | ⟨x1, _ | ⟨x2, rest⟩⟩
  all_goals try simp [hs, frameOK, stateOf]
  all_goals try (split_ifs <;> simp_all [frameOK, stateOf])
  all_goals try (split_ifs <;> simp_all [frameOK, stateOf])

lemma frame_execSUB (p : Proc) : frameOK p (stateOf (execSUB p)) := by
  unfold execSUB
  rcases hs : p.stack with _ | ⟨x1, _ | ⟨x2, rest⟩⟩
  all_goals try simp [hs, frameOK, stateOf]
  all_goals try (split_ifs <;> simp_all [frameOK, stateOf])
  all_goals try (split_ifs <;> simp_all [frameOK, stateOf])

lemma frame_execMUL (p : Proc) : frameOK p (stateOf (execMUL p)) := by
  unfold execMUL
  rcases hs : p.stack with _ | ⟨x1, _ | ⟨x2, rest⟩⟩
  all_goals try simp [hs, frameOK, stateOf]
  all_goals try (split_ifs <;> simp_all [frameOK, stateOf])
  all_goals try (split_ifs <;> simp_all [frameOK, stateOf])

lemma frame_execDIV (p : Proc) : frameOK p (stateOf (execDIV p)) := by
  unfold execDIV
  rcases hs : p.stack with _ | ⟨x1, _ | ⟨x2, rest⟩⟩
  all_goals try simp [hs, frameOK, stateOf]
  all_goals try (split_ifs <;> simp_all [frameOK, stateOf])
  all_goals try (split_ifs <;> simp_all [frameOK, stateOf])

lemma frame_execMOD (p : Proc) : frameOK p (stateOf (execMOD p)) := by
  unfold execMOD
  rcases hs : p.stack with _ | ⟨x1, _ | ⟨x2, rest⟩⟩
  all_goals try simp [hs, frameOK, stateOf]
  all_goals try (split_ifs <;> simp_all [frameOK, stateOf])
  all_goals try (split_ifs <;> simp_all [frameOK, stateOf])

lemma frame_execAND (p : Proc) : frameOK p (stateOf (execAND p)) := by
  unfold execAND
  rcases hs : p.stack with _ | ⟨x1, _ | ⟨x2, rest⟩⟩
  all_goals try simp [hs, frameOK, stateOf]
  all_goals try (split_ifs <;> simp_all [frameOK, stateOf])
  all_goals try (split_ifs <;> simp_all [frameOK, stateOf])

lemma frame_execOR (p : Proc) : frameOK p (stateOf (execOR p)) := by
  unfold execOR
  rcases hs : p.stack with _ | ⟨x1, _ | ⟨x2, rest⟩⟩
  all_goals try simp [hs, frameOK, stateOf]
  all_goals try (split_ifs <;> simp_all [frameOK, stateOf])
  all_goals try (split_ifs <;> simp_all [frameOK, stateOf])

lemma frame_execNOT (p : Proc) : frameOK p (stateOf (execNOT p)) := by
  unfold execNOT
  rcases hs : p.stack with _ | ⟨x1, rest⟩
  all_goals try simp [hs, frameOK, stateOf]
  all_goals try (split_ifs <;> simp_all [frameOK, stateOf])
  all_goals try (split_ifs <;> simp_all [frameOK, stateOf])

lemma frame_execEQ (p : Proc) : frameOK p (stateOf (execEQ p)) := by
  unfold execEQ
  rcases hs : p.stack with _ | ⟨x1, _ | ⟨x2, rest⟩⟩
  all_goals try simp [hs, frameOK, stateOf]
  all_goals try (split_ifs <;> simp_all [frameOK, stateOf])
  all_goals try (split_ifs <;> simp_all [frameOK, stateOf])

lemma frame_execNE (p : Proc) : frameOK p (stateOf (execNE p)) := by
  unfold execNE
  rcases hs : p.stack with _ | ⟨x1, _ | ⟨x2, rest⟩⟩
  all_goals try simp [hs, frameOK, stateOf]
  all_goals try (split_ifs <;> simp_all [frameOK, stateOf])
  all_goals try (split_ifs <;> simp_all [frameOK, stateOf])

lemma frame_execLT (p : Proc) : frameOK p (stateOf (execLT p)) := by
  unfold execLT
  rcases hs : p.stack with _ | ⟨x1, _ | ⟨x2, rest⟩⟩
  all_goals try simp [hs, frameOK, stateOf]
  all_goals try (split_ifs <;> simp_all [frameOK, stateOf])
  all_goals try (split_ifs <;> simp_all [frameOK, stateOf])

lemma frame_execLE (p : Proc) : frameOK p (stateOf (execLE p)) := by
  unfold execLE
  rcases hs : p.stack with _ | ⟨x1, _ | ⟨x2, rest⟩⟩
  all_goals try simp [hs, frameOK, stateOf]
  all_goals try (split_ifs <;> simp_all [frameOK, stateOf])
  all_goals try (split_ifs <;> simp_all [frameOK, stateOf])

lemma frame_execGT (p : Proc) : frameOK p (stateOf (execGT p)) := by
  unfold execGT
  rcases hs : p.stack with _ | ⟨x1, _ | ⟨x2, rest⟩⟩
  all_goals try simp [hs, frameOK, stateOf]
  all_goals try (split_ifs <;> simp_all [frameOK, stateOf])
  all_goals try (split_ifs <;> simp_all [frameOK, stateOf])

lemma frame_execGE (p : Proc) : frameOK p (stateOf (execGE p)) := by
  unfold execGE
  rcases hs : p.stack with _ | ⟨x1, _ | ⟨x2, rest⟩⟩
  all_goals try simp [hs, frameOK, stateOf]
  all_goals try (split_ifs <;> simp_all [frameOK, stateOf])
  all_goals try (split_ifs <;> simp_all [frameOK, stateOf])

lemma frame_execJMP (operand : Nat) (p : Proc) : frameOK p (stateOf (execJMP operand p)) := by
  unfold execJMP
  all_goals try simp [frameOK, stateOf]
  all_goals try (split_ifs <;> simp_all [frameOK, stateOf])
  all_goals try (split_ifs <;> simp_all [frameOK, stateOf])

lemma frame_execJZ (operand : Nat) (p : Proc) : frameOK p (stateOf (execJZ operand p)) := by
  unfold execJZ
  rcases hs : p.stack with _ | ⟨x1, rest⟩
  all_goals try simp [hs, frameOK, stateOf]
  all_goals try (split_ifs <;> simp_all [frameOK, stateOf])
  all_goals try (split_ifs <;> simp_all [frameOK, stateOf])

lemma frame_execJNZ (operand : Nat) (p : Proc) : frameOK p (stateOf (execJNZ operand p)) := by
  unfold execJNZ
  rcases hs : p.stack with _ | ⟨x1, rest⟩
  all_goals try simp [hs, frameOK, stateOf]
  all_goals try (split_ifs <;> simp_all [frameOK, stateOf])
  all_goals try (split_ifs <;> simp_all [frameOK, stateOf])

lemma frame_execCALL (operand : Nat) (p : Proc) : frameOK p (stateOf (execCALL operand p)) := by
  unfold execCALL
  all_goals try simp [frameOK, stateOf]
  all_goals try (split_ifs <;> simp_all [frameOK, stateOf])
  all_goals try (split_ifs <;> simp_all [frameOK, stateOf])

lemma frame_execRET (p : Proc) : frameOK p (stateOf (execRET p)) := by
  unfold execRET
  rcases hs : p.call_stack with _ | ⟨r, rest⟩
  all_goals try simp [hs, frameOK, stateOf]
  all_goals try (split_ifs <;> simp_all [frameOK, stateOf])
  all_goals try (split_ifs <;> simp_all [frameOK, stateOf])

lemma frame_execLOAD (p : Proc) : frameOK p (stateOf (execLOAD p)) := by
  unfold execLOAD read_memory_word
  rcases hs : p.stack with _ | ⟨x1, rest⟩
  all_goals try simp [hs, frameOK, stateOf]
  all_goals try (split_ifs <;> simp_all [frameOK, stateOf])
  all_goals try (split_ifs <;> simp_all [frameOK, stateOf])

lemma frame_execLOADB (p : Proc) : frameOK p (stateOf (execLOADB p)) := by
  unfold execLOADB
  rcases hs : p.stack with _ | ⟨x1, rest⟩
  all_goals try simp [hs, frameOK, stateOf]
  all_goals try (split_ifs <;> simp_all [frameOK, stateOf])
  all_goals try (split_ifs <;> simp_all [frameOK, stateOf])

lemma frame_execSTORE (p : Proc) : frameOK p (stateOf (execSTORE p)) := by
  unfold execSTORE write_memory_word
  rcases hs : p.stack with _ | ⟨x1, _ | ⟨x2, rest⟩⟩
  all_goals try simp [hs, frameOK, stateOf]
  all_goals try (split_ifs <;> simp_all [frameOK, stateOf])
  all_goals try (split_ifs <;> simp_all [frameOK, stateOf])

lemma frame_execSTOREB (p : Proc) : frameOK p (stateOf (execSTOREB p)) := by
  unfold execSTOREB
  rcases hs : p.stack with _ | ⟨x1, _ | ⟨x2, rest⟩⟩
  all_goals try simp [hs, frameOK, stateOf]
  all_goals try (split_ifs <;> simp_all [frameOK, stateOf])
  all_goals try (split_ifs <;> simp_all [frameOK, stateOf])

lemma frame_execIN (p : Proc) : frameOK p (stateOf (execIN p)) := by
  unfold execIN
  rcases hs : p.input_buffer with _ | ⟨v, rest⟩
  all_goals try simp [hs, frameOK, stateOf]
  all_goals try (split_ifs <;> simp_all [frameOK, stateOf])
  all_goals try (split_ifs <;> simp_all [frameOK, stateOf])

lemma frame_execOUT (operand : Nat) (p : Proc) : frameOK p (stateOf (execOUT operand p)) := by
  unfold execOUT executeOUT
  rcases hs : p.stack with _ | ⟨x1, rest⟩
  all_goals try simp [hs, frameOK, stateOf]
  all_goals try (split_ifs <;> simp_all [frameOK, stateOf])
  all_goals try (split_ifs <;> simp_all [frameOK, stateOf])

lemma frame_execINT (operand : Nat) (p : Proc) : frameOK p (stateOf (execINT operand p)) := by
  unfold execINT handle_software_interrupt nestedExecOut1 executeOUT
  rcases hs : p.stack with _ | ⟨x1, _ | ⟨x2, rest⟩⟩
  all_goals try simp [hs, frameOK, stateOf]
  all_goals try (split_ifs <;> simp_all [frameOK, stateOf])
  all_goals try (split_ifs <;> simp_all [frameOK, stateOf])

lemma frame_execIRET (p : Proc) : frameOK p (stateOf (execIRET p)) := by
  unfold execIRET
  rcases hs : p.call_stack with _ | ⟨r, rest⟩
  all_goals try simp [hs, frameOK, stateOf]
  all_goals try (split_ifs <;> simp_all [frameOK, stateOf])
  all_goals try (split_ifs <;> simp_all [frameOK, stateOf])

lemma frame_execVADD (p : Proc) : frameOK p (stateOf (execVADD p)) := by
  unfold execVADD
  rcases hs : p.stack with _ | ⟨x1, _ | ⟨x2, _ | ⟨x3, rest⟩⟩⟩
  all_goals try simp [hs, frameOK, stateOf]
  all_goals try (split_ifs <;> simp_all [frameOK, stateOf])
  all_goals try (split_ifs <;> simp_all [frameOK, stateOf])

lemma frame_execVSUB (p : Proc) : frameOK p (stateOf (execVSUB p)) := by
  unfold execVSUB
  rcases hs : p.stack with _ | ⟨x1, _ | ⟨x2, _ | ⟨x3, rest⟩⟩⟩
  all_goals try simp [hs, frameOK, stateOf]
  all_goals try (split_ifs <;> simp_all [frameOK, stateOf])
  all_goals try (split_ifs <;> simp_all [frameOK, stateOf])

lemma frame_execVMUL (p : Proc) : frameOK p (stateOf (execVMUL p)) := by
  unfold execVMUL
  rcases hs : p.stack with _ | ⟨x1, _ | ⟨x2, _ | ⟨x3, rest⟩⟩⟩
  all_goals try simp [hs, frameOK, stateOf]
  all_goals try (split_ifs <;> simp_all [frameOK, stateOf])
  all_goals try (split_ifs <;> simp_all [frameOK, stateOf])

lemma frame_execVDOT (p : Proc) : frameOK p (stateOf (execVDOT p)) := by
  unfold execVDOT
  rcases hs : p.stack with _ | ⟨x1, _ | ⟨x2, rest⟩⟩
  all_goals try simp [hs, frameOK, stateOf]
  all_goals try (split_ifs <;> simp_all [frameOK, stateOf])
  all_goals try (split_ifs <;> simp_all [frameOK, stateOf])

lemma frame_execVNORM (p : Proc) : frameOK p (stateOf (execVNORM p)) := by
  unfold execVNORM
  rcases hs : p.stack with _ | ⟨x1, rest⟩
  all_goals try simp [hs, frameOK, stateOf]
  all_goals try (split_ifs <;> simp_all [frameOK, stateOf])
  all_goals try (split_ifs <;> simp_all [frameOK, stateOf])

lemma frame_execVMAX (p : Proc) : frameOK p (stateOf (execVMAX p)) := by
  unfold execVMAX
  rcases hs : p.stack with _ | ⟨x1, rest⟩
  all_goals try simp [hs, frameOK, stateOf]
  all_goals try (split_ifs <;> simp_all [frameOK, stateOf])
  all_goals try (split_ifs <;> simp_all [frameOK, stateOf])

lemma frame_execVMIN (p : Proc) : frameOK p (stateOf (execVMIN p)) := by
  unfold execVMIN
  rcases hs : p.stack with _ | ⟨x1, rest⟩
  all_goals try simp [hs, frameOK, stateOf]
  all_goals try (split_ifs <;> simp_all [frameOK, stateOf])
  all_goals try (split_ifs <;> simp_all [frameOK, stateOf])

lemma frame_execVSUM (p : Proc) : frameOK p (stateOf (execVSUM p)) := by
  unfold execVSUM
  rcases hs : p.stack with _ | ⟨x1, rest⟩
  all_goals try simp [hs, frameOK, stateOf]
  all_goals try (split_ifs <;> simp_all [frameOK, stateOf])
  all_goals try (split_ifs <;> simp_all [frameOK, stateOf])

lemma frame_execVAVG (p : Proc) : frameOK p (stateOf (execVAVG p)) := by
  unfold execVAVG
  rcases hs : p.stack with _ | ⟨x1, rest⟩
  all_goals try simp [hs, frameOK, stateOf]
  all_goals try (split_ifs <;> simp_all [frameOK, stateOf])
  all_goals try (split_ifs <;> simp_all [frameOK, stateOf])

lemma frame_execVSCALE (p : Proc) : frameOK p (stateOf (execVSCALE p)) := by
  unfold execVSCALE
  rcases hs : p.stack with _ | ⟨x1, _ | ⟨x2, _ | ⟨x3, rest⟩⟩⟩
  all_goals try simp [hs, frameOK, stateOf]
  all_goals try (split_ifs <;> simp_all [frameOK, stateOf])
  all_goals try (split_ifs <;> simp_all [frameOK, stateOf])

lemma frame_execVCOPY (p : Proc) : frameOK p (stateOf (execVCOPY p)) := by
  unfold execVCOPY
  rcases hs : p.stack with _ | ⟨x1, _ | ⟨x2, _ | ⟨x3, rest⟩⟩⟩
  all_goals try simp [hs, frameOK, stateOf]
  all_goals try (split_ifs <;> simp_all [frameOK, stateOf])
  all_goals try (split_ifs <;> simp_all [frameOK, stateOf])

lemma frame_execVSET (operand : Nat) (p : Proc) : frameOK p (stateOf (execVSET operand p)) := by
  unfold execVSET
  rcases hs : p.stack with _ | ⟨x1, _ | ⟨x2, rest⟩⟩
  all_goals try simp [hs, frameOK, stateOf]
  all_goals try (split_ifs <;> simp_all [frameOK, stateOf])
  all_goals try (split_ifs <;> simp_all [frameOK, stateOf])

lemma frame_execVLOAD (p : Proc) : frameOK p (stateOf (execVLOAD p)) := by
  unfold execVLOAD
  rcases hs : p.stack with _ | ⟨x1, _ | ⟨x2, _ | ⟨x3, rest⟩⟩⟩
  all_goals try simp [hs, frameOK, stateOf]
  all_goals try (split_ifs <;> simp_all [frameOK, stateOf])
  all_goals try (split_ifs <;> simp_all [frameOK, stateOf])

lemma frame_execVSTORE (p : Proc) : frameOK p (stateOf (execVSTORE p)) := by
  unfold execVSTORE
  rcases hs : p.stack with _ | ⟨x1, _ | ⟨x2, rest⟩⟩
  all_goals try simp [hs, frameOK, stateOf]
  all_goals try (split_ifs <;> simp_all [frameOK, stateOf])
  all_goals try (split_ifs <;> simp_all [frameOK, stateOf])

/-- No branch of the dispatch chain touches the pending-interrupt queue, the
I/O schedule, the cycle counter, the in-flight instruction bookkeeping, the
stack capacity or the instruction memory. -/
lemma execBody_frame (i : Instruction) (p : Proc) : frameOK p (stateOf (execBody i p)) := by
  unfold execBody
  split
  · exact frame_execHALT p
  · exact frame_execPUSH i.operand p
  · exact frame_execPOP p
  · exact frame_execDUP p
  · exact frame_execSWAP p
  · exact frame_execADD p
  · exact frame_execSUB p
  · exact frame_execMUL p
  · exact frame_execDIV p
  · exact frame_execMOD p
  · exact frame_execAND p
  · exact frame_execOR p
  · exact frame_execNOT p
  · exact frame_execEQ p
  · exact frame_execNE p
  · exact frame_execLT p
  · exact frame_execLE p
  · exact frame_execGT p
  · exact frame_execGE p
  · exact frame_execJMP i.operand p
  · exact frame_execJZ i.operand p
  · exact frame_execJNZ i.operand p
  · exact frame_execCALL i.operand p
  · exact frame_execRET p
  · exact frame_execLOAD p
  · exact frame_execLOADB p
  · exact frame_execSTORE p
  · exact frame_execSTOREB p
  · exact frame_execIN p
  · exact frame_execOUT i.operand p
  · exact frame_execINT i.operand p
  · exact frame_execIRET p
  · exact frame_execVADD p
  · exact frame_execVSUB p
  · exact frame_execVMUL p
  · exact frame_execVDOT p
  · exact frame_execVNORM p
  · exact frame_execVMAX p
  · exact frame_execVMIN p
  · exact frame_execVSUM p
  · exact frame_execVAVG p
  · exact frame_execVSCALE p
  · exact frame_execVCOPY p
  · exact frame_execVSET i.operand p
  · exact frame_execVLOAD p
  · exact frame_execVSTORE p
  · exact frameOK_refl p

/-- The frame carries over to execute_instruction (which only additionally
touches PC and the state flag). -/
lemma execute_instruction_frame (i : Instruction) (p : Proc) :
    frameOK p (execute_instruction i p).1 := by
  have h := execBody_frame i p
  unfold execute_instruction
  rcases he : execBody i p with ⟨o, q⟩ | ⟨e, q⟩
  · rw [he] at h
    cases o <;> simp_all [stateOf, frameOK]
  · rw [he] at h
    simp_all [stateOf, frameOK]


/-! ## The data-stack invariant (claim C9)

Every stacked word below 2 to the 32 and the depth within capacity. Each
dispatch branch preserves it: values enter the stack only through push,
which masks, and the stack otherwise only shrinks. -/

/-- Every word on the data stack is a 32-bit word and the depth is within
the configured capacity. -/
def StackInv (p : Proc) : Prop :=
  (∀ x ∈ p.stack, x < U32) ∧ p.stack.length ≤ p.stack_size

lemma U32_pos : 0 < U32 := by norm_num [U32]

set_option maxHeartbeats 2000000 in
lemma inv_execHALT (p : Proc) (h : StackInv p) : StackInv (stateOf (execHALT p)) := by
  unfold execHALT
  unfold StackInv at h ⊢
  obtain ⟨h1, h2⟩ := h
  all_goals try simp [stateOf]
  all_goals try (split_ifs <;> simp_all [stateOf])
  all_goals try (split_ifs <;> simp_all [stateOf])
  all_goals try (split_ifs <;> simp_all [stateOf])
  all_goals try (repeat' apply And.intro)
  all_goals try (
    intro x hx
    (try simp only [List.mem_cons] at hx)
    first
      | (rcases hx with rfl | rfl | rfl | rfl | hx)
      | (rcases hx with rfl | rfl | rfl | hx)
      | (rcases hx with rfl | rfl | hx)
      | (rcases hx with rfl | hx)
      | skip)
  all_goals first
    | exact Nat.mod_lt _ U32_pos
    | exact U32_pos
    | exact h1 x (by tauto)
    | exact h1 _ (by tauto)
    | exact h1.1
    | exact h1.2.1
    | exact h1.2.2 x (by tauto)
    | exact h1.2.2 _ (by tauto)
    | (apply h1; tauto)
    | (apply h1.2.2; tauto)
    | (simp only [List.length_cons]; omega)
    | omega
    | tauto
    | (simp only [U32] at *; omega)

set_option maxHeartbeats 2000000 in
lemma inv_execPUSH (operand : Nat) (p : Proc) (h : StackInv p) : StackInv (stateOf (execPUSH operand p)) := by
  unfold execPUSH
  unfold StackInv at h ⊢
  obtain ⟨h1, h2⟩ := h
  all_goals try simp [stateOf]
  all_goals try (split_ifs <;> simp_all [stateOf])
  all_goals try (split_ifs <;> simp_all [stateOf])
  all_goals try (split_ifs <;> simp_all [stateOf])
  all_goals try (repeat' apply And.intro)
  all_goals try (
    intro x hx
    (try simp only [List.mem_cons] at hx)
    first
      | (rcases hx with rfl | rfl | rfl | rfl | hx)
      | (rcases hx with rfl | rfl | rfl | hx)
      | (rcases hx with rfl | rfl | hx)
      | (rcases hx with rfl | hx)
      | skip)
  all_goals first
    | exact Nat.mod_lt _ U32_pos
    | exact U32_pos
    | exact h1 x (by tauto)
    | exact h1 _ (by tauto)
    | exact h1.1
    | exact h1.2.1
    | exact h1.2.2 x (by tauto)
    | exact h1.2.2 _ (by tauto)
    | (apply h1; tauto)
    | (apply h1.2.2; tauto)
    | (simp only [List.length_cons]; omega)
    | omega
    | tauto
    | (simp only [U32] at *; omega)

set_option maxHeartbeats 2000000 in
lemma inv_execPOP (p : Proc) (h : StackInv p) : StackInv (stateOf (execPOP p)) := by
  unfold execPOP
  unfold StackInv at h ⊢
  obtain ⟨h1, h2⟩ := h
  rcases hs : p.stack with _ | ⟨x1, _ | ⟨x2, _ | ⟨x3, rest⟩⟩⟩
  all_goals try rw [hs] at h1 h2
  all_goals try simp only [List.mem_cons] at h1
  all_goals try simp only [List.length_cons] at h2
  all_goals try simp [hs, stateOf]
  all_goals try (split_ifs <;> simp_all [stateOf])
  all_goals try (split_ifs <;> simp_all [stateOf])
  all_goals try (split_ifs <;> simp_all [stateOf])
  all_goals try (repeat' apply And.intro)
  all_goals try (
    intro x hx
    (try simp only [List.mem_cons] at hx)
    first
      | (rcases hx with rfl | rfl | rfl | rfl | hx)
      | (rcases hx with rfl | rfl | rfl | hx)
      | (rcases hx with rfl | rfl | hx)
      | (rcases hx with rfl | hx)
      | skip)
  all_goals first
    | exact Nat.mod_lt _ U32_pos
    | exact U32_pos
    | exact h1 x (by tauto)
    | exact h1 _ (by tauto)
    | exact h1.1
    | exact h1.2.1
    | exact h1.2.2 x (by tauto)
    | exact h1.2.2 _ (by tauto)
    | (apply h1; tauto)
    | (apply h1.2.2; tauto)
    | (simp only [List.length_cons]; omega)
    | omega
    | tauto
    | (simp only [U32] at *; omega)

set_option maxHeartbeats 2000000 in
lemma inv_execDUP (p : Proc) (h : StackInv p) : StackInv (stateOf (execDUP p)) := by
  unfold execDUP
  unfold StackInv at h ⊢
  obtain ⟨h1, h2⟩ := h
  rcases hs : p.stack with _ | ⟨x1, _ | ⟨x2, _ | ⟨x3, rest⟩⟩⟩
  all_goals try rw [hs] at h1 h2
  all_goals try simp only [List.mem_cons] at h1
  all_goals try simp only [List.length_cons] at h2
  all_goals try simp [hs, stateOf]
  all_goals try (split_ifs <;> simp_all [stateOf])
  all_goals try (split_ifs <;> simp_all [stateOf])
  all_goals try (split_ifs <;> simp_all [stateOf])
  all_goals try (repeat' apply And.intro)
  all_goals try (
    intro x hx
    (try simp only [List.mem_cons] at hx)
    first
      | (rcases hx with rfl | rfl | rfl | rfl | hx)
      | (rcases hx with rfl | rfl | rfl | hx)
      | (rcases hx with rfl | rfl | hx)
      | (rcases hx with rfl | hx)
      | skip)
  all_goals first
    | exact Nat.mod_lt _ U32_pos
    | exact U32_pos
    | exact h1 x (by tauto)
    | exact h1 _ (by tauto)
    | exact h1.1
    | exact h1.2.1
    | exact h1.2.2 x (by tauto)
    | exact h1.2.2 _ (by tauto)
    | (apply h1; tauto)
    | (apply h1.2.2; tauto)
    | (simp only [List.length_cons]; omega)
    | omega
    | tauto
    | (simp only [U32] at *; omega)

set_option maxHeartbeats 2000000 in
lemma inv_execSWAP (p : Proc) (h : StackInv p) : StackInv (stateOf (execSWAP p)) := by
  unfold execSWAP
  unfold StackInv at h ⊢
  obtain ⟨h1, h2⟩ := h
  rcases hs : p.stack with _ | ⟨x1, _ | ⟨x2, _ | ⟨x3, rest⟩⟩⟩
  all_goals try rw [hs] at h1 h2
  all_goals try simp only [List.mem_cons] at h1
  all_goals try simp only [List.length_cons] at h2
  all_goals try simp [hs, stateOf]
  all_goals try (split_ifs <;> simp_all [stateOf])
  all_goals try (split_ifs <;> simp_all [stateOf])
  all_goals try (split_ifs <;> simp_all [stateOf])
  all_goals try (repeat' apply And.intro)
  all_goals try (
    intro x hx
    (try simp only [List.mem_cons] at hx)
    first
      | (rcases hx with rfl | rfl | rfl | rfl | hx)
      | (rcases hx with rfl | rfl | rfl | hx)
      | (rcases hx with rfl | rfl | hx)
      | (rcases hx with rfl | hx)
      | skip)
  all_goals first
    | exact Nat.mod_lt _ U32_pos
    | exact U32_pos
    | exact h1 x (by tauto)
    | exact h1 _ (by tauto)
    | exact h1.1
    | exact h1.2.1
    | exact h1.2.2 x (by tauto)
    | exact h1.2.2 _ (by tauto)
    | (apply h1; tauto)
    | (apply h1.2.2; tauto)
    | (simp only [List.length_cons]; omega)
    | omega
    | tauto
    | (simp only [U32] at *; omega)

set_option maxHeartbeats 2000000 in
lemma inv_execADD (p : Proc) (h : StackInv p) : StackInv (stateOf (execADD p)) := by
  unfold execADD
  unfold StackInv at h ⊢
  obtain ⟨h1, h2⟩ := h
  rcases hs : p.stack with _ | ⟨x1, _ | ⟨x2, _ | ⟨x3, rest⟩⟩⟩
  all_goals try rw [hs] at h1 h2
  all_goals try simp only [List.mem_cons] at h1
  all_goals try simp only [List.length_cons] at h2
  all_goals try simp [hs, stateOf]
  all_goals try (split_ifs <;> simp_all [stateOf])
  all_goals try (split_ifs <;> simp_all [stateOf])
  all_goals try (split_ifs <;> simp_all [stateOf])
  all_goals try (repeat' apply And.intro)
  all_goals try (
    intro x hx
    (try simp only [List.mem_cons] at hx)
    first
      | (rcases hx with rfl | rfl | rfl | rfl | hx)
      | (rcases hx with rfl | rfl | rfl | hx)
      | (rcases hx with rfl | rfl | hx)
      | (rcases hx with rfl | hx)
      | skip)
  all_goals first
    | exact Nat.mod_lt _ U32_pos
    | exact U32_pos
    | exact h1 x (by tauto)
    | exact h1 _ (by tauto)
    | exact h1.1
    | exact h1.2.1
    | exact h1.2.2 x (by tauto)
    | exact h1.2.2 _ (by tauto)
    | (apply h1; tauto)
    | (apply h1.2.2; tauto)
    | (simp only [List.length_cons]; omega)
    | omega
    | tauto
    | (simp only [U32] at *; omega)

set_option maxHeartbeats 2000000 in
lemma inv_execSUB (p : Proc) (h : StackInv p) : StackInv (stateOf (execSUB p)) := by
  unfold execSUB
  unfold StackInv at h ⊢
  obtain ⟨h1, h2⟩ := h
  rcases hs : p.stack with _ | ⟨x1, _ | ⟨x2, _ | ⟨x3, rest⟩⟩⟩
  all_goals try rw [hs] at h1 h2
  all_goals try simp only [List.mem_cons] at h1
  all_goals try simp only [List.length_cons] at h2
  all_goals try simp [hs, stateOf]
  all_goals try (split_ifs <;> simp_all [stateOf])
  all_goals try (split_ifs <;> simp_all [stateOf])
  all_goals try (split_ifs <;> simp_all [stateOf])
  all_goals try (repeat' apply And.intro)
  all_goals try (
    intro x hx
    (try simp only [List.mem_cons] at hx)
    first
      | (rcases hx with rfl | rfl | rfl | rfl | hx)
      | (rcases hx with rfl | rfl | rfl | hx)
      | (rcases hx with rfl | rfl | hx)
      | (rcases hx with rfl | hx)
      | skip)
  all_goals first
    | exact Nat.mod_lt _ U32_pos
    | exact U32_pos
    | exact h1 x (by tauto)
    | exact h1 _ (by tauto)
    | exact h1.1
    | exact h1.2.1
    | exact h1.2.2 x (by tauto)
    | exact h1.2.2 _ (by tauto)
    | (apply h1; tauto)
    | (apply h1.2.2; tauto)
    | (simp only [List.length_cons]; omega)
    | omega
    | tauto
    | (simp only [U32] at *; omega)

set_option maxHeartbeats 2000000 in
lemma inv_execMUL (p : Proc) (h : StackInv p) : StackInv (stateOf (execMUL p)) := by
  unfold execMUL
  unfold StackInv at h ⊢
  obtain ⟨h1, h2⟩ := h
  rcases hs : p.stack with _ | ⟨x1, _ | ⟨x2, _ | ⟨x3, rest⟩⟩⟩
  all_goals try rw [hs] at h1 h2
  all_goals try simp only [List.mem_cons] at h1
  all_goals try simp only [List.length_cons] at h2
  all_goals try simp [hs, stateOf]
  all_goals try (split_ifs <;> simp_all [stateOf])
  all_goals try (split_ifs <;> simp_all [stateOf])
  all_goals try (split_ifs <;> simp_all [stateOf])
  all_goals try (repeat' apply And.intro)
  all_goals try (
    intro x hx
    (try simp only [List.mem_cons] at hx)
    first
      | (rcases hx with rfl | rfl | rfl | rfl | hx)
      | (rcases hx with rfl | rfl | rfl | hx)
      | (rcases hx with rfl | rfl | hx)
      | (rcases hx with rfl | hx)
      | skip)
  all_goals first
    | exact Nat.mod_lt _ U32_pos
    | exact U32_pos
    | exact h1 x (by tauto)
    | exact h1 _ (by tauto)
    | exact h1.1
    | exact h1.2.1
    | exact h1.2.2 x (by tauto)
    | exact h1.2.2 _ (by tauto)
    | (apply h1; tauto)
    | (apply h1.2.2; tauto)
    | (simp only [List.length_cons]; omega)
    | omega
    | tauto
    | (simp only [U32] at *; omega)

set_option maxHeartbeats 2000000 in
lemma inv_execDIV (p : Proc) (h : StackInv p) : StackInv (stateOf (execDIV p)) := by
  unfold execDIV
  unfold StackInv at h ⊢
  obtain ⟨h1, h2⟩ := h
  rcases hs : p.stack with _ | ⟨x1, _ | ⟨x2, _ | ⟨x3, rest⟩⟩⟩
  all_goals try rw [hs] at h1 h2
  all_goals try simp only [List.mem_cons] at h1
  all_goals try simp only [List.length_cons] at h2
  all_goals try simp [hs, stateOf]
  all_goals try (split_ifs <;> simp_all [stateOf])
  all_goals try (split_ifs <;> simp_all [stateOf])
  all_goals try (split_ifs <;> simp_all [stateOf])
  all_goals try (repeat' apply And.intro)
  all_goals try (
    intro x hx
    (try simp only [List.mem_cons] at hx)
    first
      | (rcases hx with rfl | rfl | rfl | rfl | hx)
      | (rcases hx with rfl | rfl | rfl | hx)
      | (rcases hx with rfl | rfl | hx)
      | (rcases hx with rfl | hx)
      | skip)
  all_goals first
    | exact Nat.mod_lt _ U32_pos
    | exact U32_pos
    | exact h1 x (by tauto)
    | exact h1 _ (by tauto)
    | exact h1.1
    | exact h1.2.1
    | exact h1.2.2 x (by tauto)
    | exact h1.2.2 _ (by tauto)
    | (apply h1; tauto)
    | (apply h1.2.2; tauto)
    | (simp only [List.length_cons]; omega)
    | omega
    | tauto
    | (simp only [U32] at *; omega)

set_option maxHeartbeats 2000000 in
lemma inv_execMOD (p : Proc) (h : StackInv p) : StackInv (stateOf (execMOD p)) := by
  unfold execMOD
  unfold StackInv at h ⊢
  obtain ⟨h1, h2⟩ := h
  rcases hs : p.stack with _ | ⟨x1, _ | ⟨x2, _ | ⟨x3, rest⟩⟩⟩
  all_goals try rw [hs] at h1 h2
  all_goals try simp only [List.mem_cons] at h1
  all_goals try simp only [List.length_cons] at h2
  all_goals try simp [hs, stateOf]
  all_goals try (split_ifs <;> simp_all [stateOf])
  all_goals try (split_ifs <;> simp_all [stateOf])
  all_goals try (split_ifs <;> simp_all [stateOf])
  all_goals try (repeat' apply And.intro)
  all_goals try (
    intro x hx
    (try simp only [List.mem_cons] at hx)
    first
      | (rcases hx with rfl | rfl | rfl | rfl | hx)
      | (rcases hx with rfl | rfl | rfl | hx)
      | (rcases hx with rfl | rfl | hx)
      | (rcases hx with rfl | hx)
      | skip)
  all_goals first
    | exact Nat.mod_lt _ U32_pos
    | exact U32_pos
    | exact h1 x (by tauto)
    | exact h1 _ (by tauto)
    | exact h1.1
    | exact h1.2.1
    | exact h1.2.2 x (by tauto)
    | exact h1.2.2 _ (by tauto)
    | (apply h1; tauto)
    | (apply h1.2.2; tauto)
    | (simp only [List.length_cons]; omega)
    | omega
    | tauto
    | (simp only [U32] at *; omega)

set_option maxHeartbeats 2000000 in
lemma inv_execAND (p : Proc) (h : StackInv p) : StackInv (stateOf (execAND p)) := by
  unfold execAND
  unfold StackInv at h ⊢
  obtain ⟨h1, h2⟩ := h
  rcases hs : p.stack with _ | ⟨x1, _ | ⟨x2, _ | ⟨x3, rest⟩⟩⟩
  all_goals try rw [hs] at h1 h2
  all_goals try simp only [List.mem_cons] at h1
  all_goals try simp only [List.length_cons] at h2
  all_goals try simp [hs, stateOf]
  all_goals try (split_ifs <;> simp_all [stateOf])
  all_goals try (split_ifs <;> simp_all [stateOf])
  all_goals try (split_ifs <;> simp_all [stateOf])
  all_goals try (repeat' apply And.intro)
  all_goals try (
    intro x hx
    (try simp only [List.mem_cons] at hx)
    first
      | (rcases hx with rfl | rfl | rfl | rfl | hx)
      | (rcases hx with rfl | rfl | rfl | hx)
      | (rcases hx with rfl | rfl | hx)
      | (rcases hx with rfl | hx)
      | skip)
  all_goals first
    | exact Nat.mod_lt _ U32_pos
    | exact U32_pos
    | exact h1 x (by tauto)
    | exact h1 _ (by tauto)
    | exact h1.1
    | exact h1.2.1
    | exact h1.2.2 x (by tauto)
    | exact h1.2.2 _ (by tauto)
    | (apply h1; tauto)
    | (apply h1.2.2; tauto)
    | (simp only [List.length_cons]; omega)
    | omega
    | tauto
    | (simp only [U32] at *; omega)

set_option maxHeartbeats 2000000 in
lemma inv_execOR (p : Proc) (h : StackInv p) : StackInv (stateOf (execOR p)) := by
  unfold execOR
  unfold StackInv at h ⊢
  obtain ⟨h1, h2⟩ := h
  rcases hs : p.stack with _ | ⟨x1, _ | ⟨x2, _ | ⟨x3, rest⟩⟩⟩
  all_goals try rw [hs] at h1 h2
  all_goals try simp only [List.mem_cons] at h1
  all_goals try simp only [List.length_cons] at h2
  all_goals try simp [hs, stateOf]
  all_goals try (split_ifs <;> simp_all [stateOf])
  all_goals try (split_ifs <;> simp_all [stateOf])
  all_goals try (split_ifs <;> simp_all [stateOf])
  all_goals try (repeat' apply And.intro)
  all_goals try (
    intro x hx
    (try simp only [List.mem_cons] at hx)
    first
      | (rcases hx with rfl | rfl | rfl | rfl | hx)
      | (rcases hx with rfl | rfl | rfl | hx)
      | (rcases hx with rfl | rfl | hx)
      | (rcases hx with rfl | hx)
      | skip)
  all_goals first
    | exact Nat.mod_lt _ U32_pos
    | exact U32_pos
    | exact h1 x (by tauto)
    | exact h1 _ (by tauto)
    | exact h1.1
    | exact h1.2.1
    | exact h1.2.2 x (by tauto)
    | exact h1.2.2 _ (by tauto)
    | (apply h1; tauto)
    | (apply h1.2.2; tauto)
    | (simp only [List.length_cons]; omega)
    | omega
    | tauto
    | (simp only [U32] at *; omega)

set_option maxHeartbeats 2000000 in
lemma inv_execNOT (p : Proc) (h : StackInv p) : StackInv (stateOf (execNOT p)) := by
  unfold execNOT
  unfold StackInv at h ⊢
  obtain ⟨h1, h2⟩ := h
  rcases hs : p.stack with _ | ⟨x1, _ | ⟨x2, _ | ⟨x3, rest⟩⟩⟩
  all_goals try rw [hs] at h1 h2
  all_goals try simp only [List.mem_cons] at h1
  all_goals try simp only [List.length_cons] at h2
  all_goals try simp [hs, stateOf]
  all_goals try (split_ifs <;> simp_all [stateOf])
  all_goals try (split_ifs <;> simp_all [stateOf])
  all_goals try (split_ifs <;> simp_all [stateOf])
  all_goals try (repeat' apply And.intro)
  all_goals try (
    intro x hx
    (try simp only [List.mem_cons] at hx)
    first
      | (rcases hx with rfl | rfl | rfl | rfl | hx)
      | (rcases hx with rfl | rfl | rfl | hx)
      | (rcases hx with rfl | rfl | hx)
      | (rcases hx with rfl | hx)
      | skip)
  all_goals first
    | exact Nat.mod_lt _ U32_pos
    | exact U32_pos
    | exact h1 x (by tauto)
    | exact h1 _ (by tauto)
    | exact h1.1
    | exact h1.2.1
    | exact h1.2.2 x (by tauto)
    | exact h1.2.2 _ (by tauto)
    | (apply h1; tauto)
    | (apply h1.2.2; tauto)
    | (simp only [List.length_cons]; omega)
    | omega
    | tauto
    | (simp only [U32] at *; omega)

set_option maxHeartbeats 2000000 in
lemma inv_execEQ (p : Proc) (h : StackInv p) : StackInv (stateOf (execEQ p)) := by
  unfold execEQ
  unfold StackInv at h ⊢
  obtain ⟨h1, h2⟩ := h
  rcases hs : p.stack with _ | ⟨x1, _ | ⟨x2, _ | ⟨x3, rest⟩⟩⟩
  all_goals try rw [hs] at h1 h2
  all_goals try simp only [List.mem_cons] at h1
  all_goals try simp only [List.length_cons] at h2
  all_goals try simp [hs, stateOf]
  all_goals try (split_ifs <;> simp_all [stateOf])
  all_goals try (split_ifs <;> simp_all [stateOf])
  all_goals try (split_ifs <;> simp_all [stateOf])
  all_goals try (repeat' apply And.intro)
  all_goals try (
    intro x hx
    (try simp only [List.mem_cons] at hx)
    first
      | (rcases hx with rfl | rfl | rfl | rfl | hx)
      | (rcases hx with rfl | rfl | rfl | hx)
      | (rcases hx with rfl | rfl | hx)
      | (rcases hx with rfl | hx)
      | skip)
  all_goals first
    | exact Nat.mod_lt _ U32_pos
    | exact U32_pos
    | exact h1 x (by tauto)
    | exact h1 _ (by tauto)
    | exact h1.1
    | exact h1.2.1
    | exact h1.2.2 x (by tauto)
    | exact h1.2.2 _ (by tauto)
    | (apply h1; tauto)
    | (apply h1.2.2; tauto)
    | (simp only [List.length_cons]; omega)
    | omega
    | tauto
    | (simp only [U32] at *; omega)

set_option maxHeartbeats 2000000 in
lemma inv_execNE (p : Proc) (h : StackInv p) : StackInv (stateOf (execNE p)) := by
  unfold execNE
  unfold StackInv at h ⊢
  obtain ⟨h1, h2⟩ := h
  rcases hs : p.stack with _ | ⟨x1, _ | ⟨x2, _ | ⟨x3, rest⟩⟩⟩
  all_goals try rw [hs] at h1 h2
  all_goals try simp only [List.mem_cons] at h1
  all_goals try simp only [List.length_cons] at h2
  all_goals try simp [hs, stateOf]
  all_goals try (split_ifs <;> simp_all [stateOf])
  all_goals try (split_ifs <;> simp_all [stateOf])
  all_goals try (split_ifs <;> simp_all [stateOf])
  all_goals try (repeat' apply And.intro)
  all_goals try (
    intro x hx
    (try simp only [List.mem_cons] at hx)
    first
      | (rcases hx with rfl | rfl | rfl | rfl | hx)
      | (rcases hx with rfl | rfl | rfl | hx)
      | (rcases hx with rfl | rfl | hx)
      | (rcases hx with rfl | hx)
      | skip)
  all_goals first
    | exact Nat.mod_lt _ U32_pos
    | exact U32_pos
    | exact h1 x (by tauto)
    | exact h1 _ (by tauto)
    | exact h1.1
    | exact h1.2.1
    | exact h1.2.2 x (by tauto)
    | exact h1.2.2 _ (by tauto)
    | (apply h1; tauto)
    | (apply h1.2.2; tauto)
    | (simp only [List.length_cons]; omega)
    | omega
    | tauto
    | (simp only [U32] at *; omega)

set_option maxHeartbeats 2000000 in
lemma inv_execLT (p : Proc) (h : StackInv p) : StackInv (stateOf (execLT p)) := by
  unfold execLT
  unfold StackInv at h ⊢
  obtain ⟨h1, h2⟩ := h
  rcases hs : p.stack with _ | ⟨x1, _ | ⟨x2, _ | ⟨x3, rest⟩⟩⟩
  all_goals try rw [hs] at h1 h2
  all_goals try simp only [List.mem_cons] at h1
  all_goals try simp only [List.length_cons] at h2
  all_goals try simp [hs, stateOf]
  all_goals try (split_ifs <;> simp_all [stateOf])
  all_goals try (split_ifs <;> simp_all [stateOf])
  all_goals try (split_ifs <;> simp_all [stateOf])
  all_goals try (repeat' apply And.intro)
  all_goals try (
    intro x hx
    (try simp only [List.mem_cons] at hx)
    first
      | (rcases hx with rfl | rfl | rfl | rfl | hx)
      | (rcases hx with rfl | rfl | rfl | hx)
      | (rcases hx with rfl | rfl | hx)
      | (rcases hx with rfl | hx)
      | skip)
  all_goals first
    | exact Nat.mod_lt _ U32_pos
    | exact U32_pos
    | exact h1 x (by tauto)
    | exact h1 _ (by tauto)
    | exact h1.1
    | exact h1.2.1
    | exact h1.2.2 x (by tauto)
    | exact h1.2.2 _ (by tauto)
    | (apply h1; tauto)
    | (apply h1.2.2; tauto)
    | (simp only [List.length_cons]; omega)
    | omega
    | tauto
    | (simp only [U32] at *; omega)

set_option maxHeartbeats 2000000 in
lemma inv_execLE (p : Proc) (h : StackInv p) : StackInv (stateOf (execLE p)) := by
  unfold execLE
  unfold StackInv at h ⊢
  obtain ⟨h1, h2⟩ := h
  rcases hs : p.stack with _ | ⟨x1, _ | ⟨x2, _ | ⟨x3, rest⟩⟩⟩
  all_goals try rw [hs] at h1 h2
  all_goals try simp only [List.mem_cons] at h1
  all_goals try simp only [List.length_cons] at h2
  all_goals try simp [hs, stateOf]
  all_goals try (split_ifs <;> simp_all [stateOf])
  all_goals try (split_ifs <;> simp_all [stateOf])
  all_goals try (split_ifs <;> simp_all [stateOf])
  all_goals try (repeat' apply And.intro)
  all_goals try (
    intro x hx
    (try simp only [List.mem_cons] at hx)
    first
      | (rcases hx with rfl | rfl | rfl | rfl | hx)
      | (rcases hx with rfl | rfl | rfl | hx)
      | (rcases hx with rfl | rfl | hx)
      | (rcases hx with rfl | hx)
      | skip)
  all_goals first
    | exact Nat.mod_lt _ U32_pos
    | exact U32_pos
    | exact h1 x (by tauto)
    | exact h1 _ (by tauto)
    | exact h1.1
    | exact h1.2.1
    | exact h1.2.2 x (by tauto)
    | exact h1.2.2 _ (by tauto)
    | (apply h1; tauto)
    | (apply h1.2.2; tauto)
    | (simp only [List.length_cons]; omega)
    | omega
    | tauto
    | (simp only [U32] at *; omega)

set_option maxHeartbeats 2000000 in
lemma inv_execGT (p : Proc) (h : StackInv p) : StackInv (stateOf (execGT p)) := by
  unfold execGT
  unfold StackInv at h ⊢
  obtain ⟨h1, h2⟩ := h
  rcases hs : p.stack with _ | ⟨x1, _ | ⟨x2, _ | ⟨x3, rest⟩⟩⟩
  all_goals try rw [hs] at h1 h2
  all_goals try simp only [List.mem_cons] at h1
  all_goals try simp only [List.length_cons] at h2
  all_goals try simp [hs, stateOf]
  all_goals try (split_ifs <;> simp_all [stateOf])
  all_goals try (split_ifs <;> simp_all [stateOf])
  all_goals try (split_ifs <;> simp_all [stateOf])
  all_goals try (repeat' apply And.intro)
  all_goals try (
    intro x hx
    (try simp only [List.mem_cons] at hx)
    first
      | (rcases hx with rfl | rfl | rfl | rfl | hx)
      | (rcases hx with rfl | rfl | rfl | hx)
      | (rcases hx with rfl | rfl | hx)
      | (rcases hx with rfl | hx)
      | skip)
  all_goals first
    | exact Nat.mod_lt _ U32_pos
    | exact U32_pos
    | exact h1 x (by tauto)
    | exact h1 _ (by tauto)
    | exact h1.1
    | exact h1.2.1
    | exact h1.2.2 x (by tauto)
    | exact h1.2.2 _ (by tauto)
    | (apply h1; tauto)
    | (apply h1.2.2; tauto)
    | (simp only [List.length_cons]; omega)
    | omega
    | tauto
    | (simp only [U32] at *; omega)

set_option maxHeartbeats 2000000 in
lemma inv_execGE (p : Proc) (h : StackInv p) : StackInv (stateOf (execGE p)) := by
  unfold execGE
  unfold StackInv at h ⊢
  obtain ⟨h1, h2⟩ := h
  rcases hs : p.stack with _ | ⟨x1, _ | ⟨x2, _ | ⟨x3, rest⟩⟩⟩
  all_goals try rw [hs] at h1 h2
  all_goals try simp only [List.mem_cons] at h1
  all_goals try simp only [List.length_cons] at h2
  all_goals try simp [hs, stateOf]
  all_goals try (split_ifs <;> simp_all [stateOf])
  all_goals try (split_ifs <;> simp_all [stateOf])
  all_goals try (split_ifs <;> simp_all [stateOf])
  all_goals try (repeat' apply And.intro)
  all_goals try (
    intro x hx
    (try simp only [List.mem_cons] at hx)
    first
      | (rcases hx with rfl | rfl | rfl | rfl | hx)
      | (rcases hx with rfl | rfl | rfl | hx)
      | (rcases hx with rfl | rfl | hx)
      | (rcases hx with rfl | hx)
      | skip)
  all_goals first
    | exact Nat.mod_lt _ U32_pos
    | exact U32_pos
    | exact h1 x (by tauto)
    | exact h1 _ (by tauto)
    | exact h1.1
    | exact h1.2.1
    | exact h1.2.2 x (by tauto)
    | exact h1.2.2 _ (by tauto)
    | (apply h1; tauto)
    | (apply h1.2.2; tauto)
    | (simp only [List.length_cons]; omega)
    | omega
    | tauto
    | (simp only [U32] at *; omega)

set_option maxHeartbeats 2000000 in
lemma inv_execJMP (operand : Nat) (p : Proc) (h : StackInv p) : StackInv (stateOf (execJMP operand p)) := by
  unfold execJMP
  unfold StackInv at h ⊢
  obtain ⟨h1, h2⟩ := h
  all_goals try simp [stateOf]
  all_goals try (split_ifs <;> simp_all [stateOf])
  all_goals try (split_ifs <;> simp_all [stateOf])
  all_goals try (split_ifs <;> simp_all [stateOf])
  all_goals try (repeat' apply And.intro)
  all_goals try (
    intro x hx
    (try simp only [List.mem_cons] at hx)
    first
      | (rcases hx with rfl | rfl | rfl | rfl | hx)
      | (rcases hx with rfl | rfl | rfl | hx)
      | (rcases hx with rfl | rfl | hx)
      | (rcases hx with rfl | hx)
      | skip)
  all_goals first
    | exact Nat.mod_lt _ U32_pos
    | exact U32_pos
    | exact h1 x (by tauto)
    | exact h1 _ (by tauto)
    | exact h1.1
    | exact h1.2.1
    | exact h1.2.2 x (by tauto)
    | exact h1.2.2 _ (by tauto)
    | (apply h1; tauto)
    | (apply h1.2.2; tauto)
    | (simp only [List.length_cons]; omega)
    | omega
    | tauto
    | (simp only [U32] at *; omega)

set_option maxHeartbeats 2000000 in
lemma inv_execJZ (operand : Nat) (p : Proc) (h : StackInv p) : StackInv (stateOf (execJZ operand p)) := by
  unfold execJZ
  unfold StackInv at h ⊢
  obtain ⟨h1, h2⟩ := h
  rcases hs : p.stack with _ | ⟨x1, _ | ⟨x2, _ | ⟨x3, rest⟩⟩⟩
  all_goals try rw [hs] at h1 h2
  all_goals try simp only [List.mem_cons] at h1
  all_goals try simp only [List.length_cons] at h2
  all_goals try simp [hs, stateOf]
  all_goals try (split_ifs <;> simp_all [stateOf])
  all_goals try (split_ifs <;> simp_all [stateOf])
  all_goals try (split_ifs <;> simp_all [stateOf])
  all_goals try (repeat' apply And.intro)
  all_goals try (
    intro x hx
    (try simp only [List.mem_cons] at hx)
    first
      | (rcases hx with rfl | rfl | rfl | rfl | hx)
      | (rcases hx with rfl | rfl | rfl | hx)
      | (rcases hx with rfl | rfl | hx)
      | (rcases hx with rfl | hx)
      | skip)
  all_goals first
    | exact Nat.mod_lt _ U32_pos
    | exact U32_pos
    | exact h1 x (by tauto)
    | exact h1 _ (by tauto)
    | exact h1.1
    | exact h1.2.1
    | exact h1.2.2 x (by tauto)
    | exact h1.2.2 _ (by tauto)
    | (apply h1; tauto)
    | (apply h1.2.2; tauto)
    | (simp only [List.length_cons]; omega)
    | omega
    | tauto
    | (simp only [U32] at *; omega)

set_option maxHeartbeats 2000000 in
lemma inv_execJNZ (operand : Nat) (p : Proc) (h : StackInv p) : StackInv (stateOf (execJNZ operand p)) := by
  unfold execJNZ
  unfold StackInv at h ⊢
  obtain ⟨h1, h2⟩ := h
  rcases hs : p.stack with _ | ⟨x1, _ | ⟨x2, _ | ⟨x3, rest⟩⟩⟩
  all_goals try rw [hs] at h1 h2
  all_goals try simp only [List.mem_cons] at h1
  all_goals try simp only [List.length_cons] at h2
  all_goals try simp [hs, stateOf]
  all_goals try (split_ifs <;> simp_all [stateOf])
  all_goals try (split_ifs <;> simp_all [stateOf])
  all_goals try (split_ifs <;> simp_all [stateOf])
  all_goals try (repeat' apply And.intro)
  all_goals try (
    intro x hx
    (try simp only [List.mem_cons] at hx)
    first
      | (rcases hx with rfl | rfl | rfl | rfl | hx)
      | (rcases hx with rfl | rfl | rfl | hx)
      | (rcases hx with rfl | rfl | hx)
      | (rcases hx with rfl | hx)
      | skip)
  all_goals first
    | exact Nat.mod_lt _ U32_pos
    | exact U32_pos
    | exact h1 x (by tauto)
    | exact h1 _ (by tauto)
    | exact h1.1
    | exact h1.2.1
    | exact h1.2.2 x (by tauto)
    | exact h1.2.2 _ (by tauto)
    | (apply h1; tauto)
    | (apply h1.2.2; tauto)
    | (simp only [List.length_cons]; omega)
    | omega
    | tauto
    | (simp only [U32] at *; omega)

set_option maxHeartbeats 2000000 in
lemma inv_execCALL (operand : Nat) (p : Proc) (h : StackInv p) : StackInv (stateOf (execCALL operand p)) := by
  unfold execCALL
  unfold StackInv at h ⊢
  obtain ⟨h1, h2⟩ := h
  all_goals try simp [stateOf]
  all_goals try (split_ifs <;> simp_all [stateOf])
  all_goals try (split_ifs <;> simp_all [stateOf])
  all_goals try (split_ifs <;> simp_all [stateOf])
  all_goals try (repeat' apply And.intro)
  all_goals try (
    intro x hx
    (try simp only [List.mem_cons] at hx)
    first
      | (rcases hx with rfl | rfl | rfl | rfl | hx)
      | (rcases hx with rfl | rfl | rfl | hx)
      | (rcases hx with rfl | rfl | hx)
      | (rcases hx with rfl | hx)
      | skip)
  all_goals first
    | exact Nat.mod_lt _ U32_pos
    | exact U32_pos
    | exact h1 x (by tauto)
    | exact h1 _ (by tauto)
    | exact h1.1
    | exact h1.2.1
    | exact h1.2.2 x (by tauto)
    | exact h1.2.2 _ (by tauto)
    | (apply h1; tauto)
    | (apply h1.2.2; tauto)
    | (simp only [List.length_cons]; omega)
    | omega
    | tauto
    | (simp only [U32] at *; omega)

set_option maxHeartbeats 2000000 in
lemma inv_execRET (p : Proc) (h : StackInv p) : StackInv (stateOf (execRET p)) := by
  unfold execRET
  unfold StackInv at h ⊢
  obtain ⟨h1, h2⟩ := h
  rcases hs : p.call_stack with _ | ⟨r, rest⟩
  all_goals try rw [hs] at h1 h2
  all_goals try simp only [List.mem_cons] at h1
  all_goals try simp only [List.length_cons] at h2
  all_goals try simp [hs, stateOf]
  all_goals try (split_ifs <;> simp_all [stateOf])
  all_goals try (split_ifs <;> simp_all [stateOf])
  all_goals try (split_ifs <;> simp_all [stateOf])
  all_goals try (repeat' apply And.intro)
  all_goals try (
    intro x hx
    (try simp only [List.mem_cons] at hx)
    first
      | (rcases hx with rfl | rfl | rfl | rfl | hx)
      | (rcases hx with rfl | rfl | rfl | hx)
      | (rcases hx with rfl | rfl | hx)
      | (rcases hx with rfl | hx)
      | skip)
  all_goals first
    | exact Nat.mod_lt _ U32_pos
    | exact U32_pos
    | exact h1 x (by tauto)
    | exact h1 _ (by tauto)
    | exact h1.1
    | exact h1.2.1
    | exact h1.2.2 x (by tauto)
    | exact h1.2.2 _ (by tauto)
    | (apply h1; tauto)
    | (apply h1.2.2; tauto)
    | (simp only [List.length_cons]; omega)
    | omega
    | tauto
    | (simp only [U32] at *; omega)

set_option maxHeartbeats 2000000 in
lemma inv_execLOAD (p : Proc) (h : StackInv p) : StackInv (stateOf (execLOAD p)) := by
  unfold execLOAD read_memory_word
  unfold StackInv at h ⊢
  obtain ⟨h1, h2⟩ := h
  rcases hs : p.stack with _ | ⟨x1, _ | ⟨x2, _ | ⟨x3, rest⟩⟩⟩
  all_goals try rw [hs] at h1 h2
  all_goals try simp only [List.mem_cons] at h1
  all_goals try simp only [List.length_cons] at h2
  all_goals try simp [hs, stateOf]
  all_goals try (split_ifs <;> simp_all [stateOf])
  all_goals try (split_ifs <;> simp_all [stateOf])
  all_goals try (split_ifs <;> simp_all [stateOf])
  all_goals try (repeat' apply And.intro)
  all_goals try (
    intro x hx
    (try simp only [List.mem_cons] at hx)
    first
      | (rcases hx with rfl | rfl | rfl | rfl | hx)
      | (rcases hx with rfl | rfl | rfl | hx)
      | (rcases hx with rfl | rfl | hx)
      | (rcases hx with rfl | hx)
      | skip)
  all_goals first
    | exact Nat.mod_lt _ U32_pos
    | exact U32_pos
    | exact h1 x (by tauto)
    | exact h1 _ (by tauto)
    | exact h1.1
    | exact h1.2.1
    | exact h1.2.2 x (by tauto)
    | exact h1.2.2 _ (by tauto)
    | (apply h1; tauto)
    | (apply h1.2.2; tauto)
    | (simp only [List.length_cons]; omega)
    | omega
    | tauto
    | (simp only [U32] at *; omega)

set_option maxHeartbeats 2000000 in
lemma inv_execLOADB (p : Proc) (h : StackInv p) : StackInv (stateOf (execLOADB p)) := by
  unfold execLOADB
  unfold StackInv at h ⊢
  obtain ⟨h1, h2⟩ := h
  rcases hs : p.stack with _ | ⟨x1, _ | ⟨x2, _ | ⟨x3, rest⟩⟩⟩
  all_goals try rw [hs] at h1 h2
  all_goals try simp only [List.mem_cons] at h1
  all_goals try simp only [List.length_cons] at h2
  all_goals try simp [hs, stateOf]
  all_goals try (split_ifs <;> simp_all [stateOf])
  all_goals try (split_ifs <;> simp_all [stateOf])
  all_goals try (split_ifs <;> simp_all [stateOf])
  all_goals try (repeat' apply And.intro)
  all_goals try (
    intro x hx
    (try simp only [List.mem_cons] at hx)
    first
      | (rcases hx with rfl | rfl | rfl | rfl | hx)
      | (rcases hx with rfl | rfl | rfl | hx)
      | (rcases hx with rfl | rfl | hx)
      | (rcases hx with rfl | hx)
      | skip)
  all_goals first
    | exact Nat.mod_lt _ U32_pos
    | exact U32_pos
    | exact h1 x (by tauto)
    | exact h1 _ (by tauto)
    | exact h1.1
    | exact h1.2.1
    | exact h1.2.2 x (by tauto)
    | exact h1.2.2 _ (by tauto)
    | (apply h1; tauto)
    | (apply h1.2.2; tauto)
    | (simp only [List.length_cons]; omega)
    | omega
    | tauto
    | (simp only [U32] at *; omega)

set_option maxHeartbeats 2000000 in
lemma inv_execSTORE (p : Proc) (h : StackInv p) : StackInv (stateOf (execSTORE p)) := by
  unfold execSTORE write_memory_word
  unfold StackInv at h ⊢
  obtain ⟨h1, h2⟩ := h
  rcases hs : p.stack with _ | ⟨x1, _ | ⟨x2, _ | ⟨x3, rest⟩⟩⟩
  all_goals try rw [hs] at h1 h2
  all_goals try simp only [List.mem_cons] at h1
  all_goals try simp only [List.length_cons] at h2
  all_goals try simp [hs, stateOf]
  all_goals try (split_ifs <;> simp_all [stateOf])
  all_goals try (split_ifs <;> simp_all [stateOf])
  all_goals try (split_ifs <;> simp_all [stateOf])
  all_goals try (repeat' apply And.intro)
  all_goals try (
    intro x hx
    (try simp only [List.mem_cons] at hx)
    first
      | (rcases hx with rfl | rfl | rfl | rfl | hx)
      | (rcases hx with rfl | rfl | rfl | hx)
      | (rcases hx with rfl | rfl | hx)
      | (rcases hx with rfl | hx)
      | skip)
  all_goals first
    | exact Nat.mod_lt _ U32_pos
    | exact U32_pos
    | exact h1 x (by tauto)
    | exact h1 _ (by tauto)
    | exact h1.1
    | exact h1.2.1
    | exact h1.2.2 x (by tauto)
    | exact h1.2.2 _ (by tauto)
    | (apply h1; tauto)
    | (apply h1.2.2; tauto)
    | (simp only [List.length_cons]; omega)
    | omega
    | tauto
    | (simp only [U32] at *; omega)

set_option maxHeartbeats 2000000 in
lemma inv_execSTOREB (p : Proc) (h : StackInv p) : StackInv (stateOf (execSTOREB p)) := by
  unfold execSTOREB
  unfold StackInv at h ⊢
  obtain ⟨h1, h2⟩ := h
  rcases hs : p.stack with _ | ⟨x1, _ | ⟨x2, _ | ⟨x3, rest⟩⟩⟩
  all_goals try rw [hs] at h1 h2
  all_goals try simp only [List.mem_cons] at h1
  all_goals try simp only [List.length_cons] at h2
  all_goals try simp [hs, stateOf]
  all_goals try (split_ifs <;> simp_all [stateOf])
  all_goals try (split_ifs <;> simp_all [stateOf])
  all_goals try (split_ifs <;> simp_all [stateOf])
  all_goals try (repeat' apply And.intro)
  all_goals try (
    intro x hx
    (try simp only [List.mem_cons] at hx)
    first
      | (rcases hx with rfl | rfl | rfl | rfl | hx)
      | (rcases hx with rfl | rfl | rfl | hx)
      | (rcases hx with rfl | rfl | hx)
      | (rcases hx with rfl | hx)
      | skip)
  all_goals first
    | exact Nat.mod_lt _ U32_pos
    | exact U32_pos
    | exact h1 x (by tauto)
    | exact h1 _ (by tauto)
    | exact h1.1
    | exact h1.2.1
    | exact h1.2.2 x (by tauto)
    | exact h1.2.2 _ (by tauto)
    | (apply h1; tauto)
    | (apply h1.2.2; tauto)
    | (simp only [List.length_cons]; omega)
    | omega
    | tauto
    | (simp only [U32] at *; omega)

set_option maxHeartbeats 2000000 in
lemma inv_execIN (p : Proc) (h : StackInv p) : StackInv (stateOf (execIN p)) := by
  unfold execIN
  unfold StackInv at h ⊢
  obtain ⟨h1, h2⟩ := h
  rcases hs : p.input_buffer with _ | ⟨v, rest⟩
  all_goals try rw [hs] at h1 h2
  all_goals try simp only [List.mem_cons] at h1
  all_goals try simp only [List.length_cons] at h2
  all_goals try simp [hs, stateOf]
  all_goals try (split_ifs <;> simp_all [stateOf])
  all_goals try (split_ifs <;> simp_all [stateOf])
  all_goals try (split_ifs <;> simp_all [stateOf])
  all_goals try (repeat' apply And.intro)
  all_goals try (
    intro x hx
    (try simp only [List.mem_cons] at hx)
    first
      | (rcases hx with rfl | rfl | rfl | rfl | hx)
      | (rcases hx with rfl | rfl | rfl | hx)
      | (rcases hx with rfl | rfl | hx)
      | (rcases hx with rfl | hx)
      | skip)
  all_goals first
    | exact Nat.mod_lt _ U32_pos
    | exact U32_pos
    | exact h1 x (by tauto)
    | exact h1 _ (by tauto)
    | exact h1.1
    | exact h1.2.1
    | exact h1.2.2 x (by tauto)
    | exact h1.2.2 _ (by tauto)
    | (apply h1; tauto)
    | (apply h1.2.2; tauto)
    | (simp only [List.length_cons]; omega)
    | omega
    | tauto
    | (simp only [U32] at *; omega)

set_option maxHeartbeats 2000000 in
lemma inv_execOUT (operand : Nat) (p : Proc) (h : StackInv p) : StackInv (stateOf (execOUT operand p)) := by
  unfold execOUT executeOUT
  unfold StackInv at h ⊢
  obtain ⟨h1, h2⟩ := h
  rcases hs : p.stack with _ | ⟨x1, _ | ⟨x2, _ | ⟨x3, rest⟩⟩⟩
  all_goals try rw [hs] at h1 h2
  all_goals try simp only [List.mem_cons] at h1
  all_goals try simp only [List.length_cons] at h2
  all_goals try simp [hs, stateOf]
  all_goals try (split_ifs <;> simp_all [stateOf])
  all_goals try (split_ifs <;> simp_all [stateOf])
  all_goals try (split_ifs <;> simp_all [stateOf])
  all_goals try (repeat' apply And.intro)
  all_goals try (
    intro x hx
    (try simp only [List.mem_cons] at hx)
    first
      | (rcases hx with rfl | rfl | rfl | rfl | hx)
      | (rcases hx with rfl | rfl | rfl | hx)
      | (rcases hx with rfl | rfl | hx)
      | (rcases hx with rfl | hx)
      | skip)
  all_goals first
    | exact Nat.mod_lt _ U32_pos
    | exact U32_pos
    | exact h1 x (by tauto)
    | exact h1 _ (by tauto)
    | exact h1.1
    | exact h1.2.1
    | exact h1.2.2 x (by tauto)
    | exact h1.2.2 _ (by tauto)
    | (apply h1; tauto)
    | (apply h1.2.2; tauto)
    | (simp only [List.length_cons]; omega)
    | omega
    | tauto
    | (simp only [U32] at *; omega)

set_option maxHeartbeats 2000000 in
lemma inv_execINT (operand : Nat) (p : Proc) (h : StackInv p) : StackInv (stateOf (execINT operand p)) := by
  unfold execINT handle_software_interrupt nestedExecOut1 executeOUT
  unfold StackInv at h ⊢
  obtain ⟨h1, h2⟩ := h
  rcases hs : p.stack with _ | ⟨x1, _ | ⟨x2, _ | ⟨x3, rest⟩⟩⟩
  all_goals try rw [hs] at h1 h2
  all_goals try simp only [List.mem_cons] at h1
  all_goals try simp only [List.length_cons] at h2
  all_goals try simp [hs, stateOf]
  all_goals try (split_ifs <;> simp_all [stateOf])
  all_goals try (split_ifs <;> simp_all [stateOf])
  all_goals try (split_ifs <;> simp_all [stateOf])
  all_goals try (repeat' apply And.intro)
  all_goals try (
    intro x hx
    (try simp only [List.mem_cons] at hx)
    first
      | (rcases hx with rfl | rfl | rfl | rfl | hx)
      | (rcases hx with rfl | rfl | rfl | hx)
      | (rcases hx with rfl | rfl | hx)
      | (rcases hx with rfl | hx)
      | skip)
  all_goals first
    | exact Nat.mod_lt _ U32_pos
    | exact U32_pos
    | exact h1 x (by tauto)
    | exact h1 _ (by tauto)
    | exact h1.1
    | exact h1.2.1
    | exact h1.2.2 x (by tauto)
    | exact h1.2.2 _ (by tauto)
    | (apply h1; tauto)
    | (apply h1.2.2; tauto)
    | (simp only [List.length_cons]; omega)
    | omega
    | tauto
    | (simp only [U32] at *; omega)

set_option maxHeartbeats 2000000 in
lemma inv_execIRET (p : Proc) (h : StackInv p) : StackInv (stateOf (execIRET p)) := by
  unfold execIRET
  unfold StackInv at h ⊢
  obtain ⟨h1, h2⟩ := h
  rcases hs : p.call_stack with _ | ⟨r, rest⟩
  all_goals try rw [hs] at h1 h2
  all_goals try simp only [List.mem_cons] at h1
  all_goals try simp only [List.length_cons] at h2
  all_goals try simp [hs, stateOf]
  all_goals try (split_ifs <;> simp_all [stateOf])
  all_goals try (split_ifs <;> simp_all [stateOf])
  all_goals try (split_ifs <;> simp_all [stateOf])
  all_goals try (repeat' apply And.intro)
  all_goals try (
    intro x hx
    (try simp only [List.mem_cons] at hx)
    first
      | (rcases hx with rfl | rfl | rfl | rfl | hx)
      | (rcases hx with rfl | rfl | rfl | hx)
      | (rcases hx with rfl | rfl | hx)
      | (rcases hx with rfl | hx)
      | skip)
  all_goals first
    | exact Nat.mod_lt _ U32_pos
    | exact U32_pos
    | exact h1 x (by tauto)
    | exact h1 _ (by tauto)
    | exact h1.1
    | exact h1.2.1
    | exact h1.2.2 x (by tauto)
    | exact h1.2.2 _ (by tauto)
    | (apply h1; tauto)
    | (apply h1.2.2; tauto)
    | (simp only [List.length_cons]; omega)
    | omega
    | tauto
    | (simp only [U32] at *; omega)

set_option maxHeartbeats 2000000 in
lemma inv_execVADD (p : Proc) (h : StackInv p) : StackInv (stateOf (execVADD p)) := by
  unfold execVADD
  unfold StackInv at h ⊢
  obtain ⟨h1, h2⟩ := h
  rcases hs : p.stack with _ | ⟨x1, _ | ⟨x2, _ | ⟨x3, rest⟩⟩⟩
  all_goals try rw [hs] at h1 h2
  all_goals try simp only [List.mem_cons] at h1
  all_goals try simp only [List.length_cons] at h2
  all_goals try simp [hs, stateOf]
  all_goals try (split_ifs <;> simp_all [stateOf])
  all_goals try (split_ifs <;> simp_all [stateOf])
  all_goals try (split_ifs <;> simp_all [stateOf])
  all_goals try (repeat' apply And.intro)
  all_goals try (
    intro x hx
    (try simp only [List.mem_cons] at hx)
    first
      | (rcases hx with rfl | rfl | rfl | rfl | hx)
      | (rcases hx with rfl | rfl | rfl | hx)
      | (rcases hx with rfl | rfl | hx)
      | (rcases hx with rfl | hx)
      | skip)
  all_goals first
    | exact Nat.mod_lt _ U32_pos
    | exact U32_pos
    | exact h1 x (by tauto)
    | exact h1 _ (by tauto)
    | exact h1.1
    | exact h1.2.1
    | exact h1.2.2 x (by tauto)
    | exact h1.2.2 _ (by tauto)
    | (apply h1; tauto)
    | (apply h1.2.2; tauto)
    | (simp only [List.length_cons]; omega)
    | omega
    | tauto
    | (simp only [U32] at *; omega)

set_option maxHeartbeats 2000000 in
lemma inv_execVSUB (p : Proc) (h : StackInv p) : StackInv (stateOf (execVSUB p)) := by
  unfold execVSUB
  unfold StackInv at h ⊢
  obtain ⟨h1, h2⟩ := h
  rcases hs : p.stack with _ | ⟨x1, _ | ⟨x2, _ | ⟨x3, rest⟩⟩⟩
  all_goals try rw [hs] at h1 h2
  all_goals try simp only [List.mem_cons] at h1
  all_goals try simp only [List.length_cons] at h2
  all_goals try simp [hs, stateOf]
  all_goals try (split_ifs <;> simp_all [stateOf])
  all_goals try (split_ifs <;> simp_all [stateOf])
  all_goals try (split_ifs <;> simp_all [stateOf])
  all_goals try (repeat' apply And.intro)
  all_goals try (
    intro x hx
    (try simp only [List.mem_cons] at hx)
    first
      | (rcases hx with rfl | rfl | rfl | rfl | hx)
      | (rcases hx with rfl | rfl | rfl | hx)
      | (rcases hx with rfl | rfl | hx)
      | (rcases hx with rfl | hx)
      | skip)
  all_goals first
    | exact Nat.mod_lt _ U32_pos
    | exact U32_pos
    | exact h1 x (by tauto)
    | exact h1 _ (by tauto)
    | exact h1.1
    | exact h1.2.1
    | exact h1.2.2 x (by tauto)
    | exact h1.2.2 _ (by tauto)
    | (apply h1; tauto)
    | (apply h1.2.2; tauto)
    | (simp only [List.length_cons]; omega)
    | omega
    | tauto
    | (simp only [U32] at *; omega)

set_option maxHeartbeats 2000000 in
lemma inv_execVMUL (p : Proc) (h : StackInv p) : StackInv (stateOf (execVMUL p)) := by
  unfold execVMUL
  unfold StackInv at h ⊢
  obtain ⟨h1, h2⟩ := h
  rcases hs : p.stack with _ | ⟨x1, _ | ⟨x2, _ | ⟨x3, rest⟩⟩⟩
  all_goals try rw [hs] at h1 h2
  all_goals try simp only [List.mem_cons] at h1
  all_goals try simp only [List.length_cons] at h2
  all_goals try simp [hs, stateOf]
  all_goals try (split_ifs <;> simp_all [stateOf])
  all_goals try (split_ifs <;> simp_all [stateOf])
  all_goals try (split_ifs <;> simp_all [stateOf])
  all_goals try (repeat' apply And.intro)
  all_goals try (
    intro x hx
    (try simp only [List.mem_cons] at hx)
    first
      | (rcases hx with rfl | rfl | rfl | rfl | hx)
      | (rcases hx with rfl | rfl | rfl | hx)
      | (rcases hx with rfl | rfl | hx)
      | (rcases hx with rfl | hx)
      | skip)
  all_goals first
    | exact Nat.mod_lt _ U32_pos
    | exact U32_pos
    | exact h1 x (by tauto)
    | exact h1 _ (by tauto)
    | exact h1.1
    | exact h1.2.1
    | exact h1.2.2 x (by tauto)
    | exact h1.2.2 _ (by tauto)
    | (apply h1; tauto)
    | (apply h1.2.2; tauto)
    | (simp only [List.length_cons]; omega)
    | omega
    | tauto
    | (simp only [U32] at *; omega)

set_option maxHeartbeats 2000000 in
lemma inv_execVDOT (p : Proc) (h : StackInv p) : StackInv (stateOf (execVDOT p)) := by
  unfold execVDOT
  unfold StackInv at h ⊢
  obtain ⟨h1, h2⟩ := h
  rcases hs : p.stack with _ | ⟨x1, _ | ⟨x2, _ | ⟨x3, rest⟩⟩⟩
  all_goals try rw [hs] at h1 h2
  all_goals try simp only [List.mem_cons] at h1
  all_goals try simp only [List.length_cons] at h2
  all_goals try simp [hs, stateOf]
  all_goals try (split_ifs <;> simp_all [stateOf])
  all_goals try (split_ifs <;> simp_all [stateOf])
  all_goals try (split_ifs <;> simp_all [stateOf])
  all_goals try (repeat' apply And.intro)
  all_goals try (
    intro x hx
    (try simp only [List.mem_cons] at hx)
    first
      | (rcases hx with rfl | rfl | rfl | rfl | hx)
      | (rcases hx with rfl | rfl | rfl | hx)
      | (rcases hx with rfl | rfl | hx)
      | (rcases hx with rfl | hx)
      | skip)
  all_goals first
    | exact Nat.mod_lt _ U32_pos
    | exact U32_pos
    | exact h1 x (by tauto)
    | exact h1 _ (by tauto)
    | exact h1.1
    | exact h1.2.1
    | exact h1.2.2 x (by tauto)
    | exact h1.2.2 _ (by tauto)
    | (apply h1; tauto)
    | (apply h1.2.2; tauto)
    | (simp only [List.length_cons]; omega)
    | omega
    | tauto
    | (simp only [U32] at *; omega)

set_option maxHeartbeats 2000000 in
lemma inv_execVNORM (p : Proc) (h : StackInv p) : StackInv (stateOf (execVNORM p)) := by
  unfold execVNORM
  unfold StackInv at h ⊢
  obtain ⟨h1, h2⟩ := h
  rcases hs : p.stack with _ | ⟨x1, _ | ⟨x2, _ | ⟨x3, rest⟩⟩⟩
  all_goals try rw [hs] at h1 h2
  all_goals try simp only [List.mem_cons] at h1
  all_goals try simp only [List.length_cons] at h2
  all_goals try simp [hs, stateOf]
  all_goals try (split_ifs <;> simp_all [stateOf])
  all_goals try (split_ifs <;> simp_all [stateOf])
  all_goals try (split_ifs <;> simp_all [stateOf])
  all_goals try (repeat' apply And.intro)
  all_goals try (
    intro x hx
    (try simp only [List.mem_cons] at hx)
    first
      | (rcases hx with rfl | rfl | rfl | rfl | hx)
      | (rcases hx with rfl | rfl | rfl | hx)
      | (rcases hx with rfl | rfl | hx)
      | (rcases hx with rfl | hx)
      | skip)
  all_goals first
    | exact Nat.mod_lt _ U32_pos
    | exact U32_pos
    | exact h1 x (by tauto)
    | exact h1 _ (by tauto)
    | exact h1.1
    | exact h1.2.1
    | exact h1.2.2 x (by tauto)
    | exact h1.2.2 _ (by tauto)
    | (apply h1; tauto)
    | (apply h1.2.2; tauto)
    | (simp only [List.length_cons]; omega)
    | omega
    | tauto
    | (simp only [U32] at *; omega)

set_option maxHeartbeats 2000000 in
lemma inv_execVMAX (p : Proc) (h : StackInv p) : StackInv (stateOf (execVMAX p)) := by
  unfold execVMAX
  unfold StackInv at h ⊢
  obtain ⟨h1, h2⟩ := h
  rcases hs : p.stack with _ | ⟨x1, _ | ⟨x2, _ | ⟨x3, rest⟩⟩⟩
  all_goals try rw [hs] at h1 h2
  all_goals try simp only [List.mem_cons] at h1
  all_goals try simp only [List.length_cons] at h2
  all_goals try simp [hs, stateOf]
  all_goals try (split_ifs <;> simp_all [stateOf])
  all_goals try (split_ifs <;> simp_all [stateOf])
  all_goals try (split_ifs <;> simp_all [stateOf])
  all_goals try (repeat' apply And.intro)
  all_goals try (
    intro x hx
    (try simp only [List.mem_cons] at hx)
    first
      | (rcases hx with rfl | rfl | rfl | rfl | hx)
      | (rcases hx with rfl | rfl | rfl | hx)
      | (rcases hx with rfl | rfl | hx)
      | (rcases hx with rfl | hx)
      | skip)
  all_goals first
    | exact Nat.mod_lt _ U32_pos
    | exact U32_pos
    | exact h1 x (by tauto)
    | exact h1 _ (by tauto)
    | exact h1.1
    | exact h1.2.1
    | exact h1.2.2 x (by tauto)
    | exact h1.2.2 _ (by tauto)
    | (apply h1; tauto)
    | (apply h1.2.2; tauto)
    | (simp only [List.length_cons]; omega)
    | omega
    | tauto
    | (simp only [U32] at *; omega)

set_option maxHeartbeats 2000000 in
lemma inv_execVMIN (p : Proc) (h : StackInv p) : StackInv (stateOf (execVMIN p)) := by
  unfold execVMIN
  unfold StackInv at h ⊢
  obtain ⟨h1, h2⟩ := h
  rcases hs : p.stack with _ | ⟨x1, _ | ⟨x2, _ | ⟨x3, rest⟩⟩⟩
  all_goals try rw [hs] at h1 h2
  all_goals try simp only [List.mem_cons] at h1
  all_goals try simp only [List.length_cons] at h2
  all_goals try simp [hs, stateOf]
  all_goals try (split_ifs <;> simp_all [stateOf])
  all_goals try (split_ifs <;> simp_all [stateOf])
  all_goals try (split_ifs <;> simp_all [stateOf])
  all_goals try (repeat' apply And.intro)
  all_goals try (
    intro x hx
    (try simp only [List.mem_cons] at hx)
    first
      | (rcases hx with rfl | rfl | rfl | rfl | hx)
      | (rcases hx with rfl | rfl | rfl | hx)
      | (rcases hx with rfl | rfl | hx)
      | (rcases hx with rfl | hx)
      | skip)
  all_goals first
    | exact Nat.mod_lt _ U32_pos
    | exact U32_pos
    | exact h1 x (by tauto)
    | exact h1 _ (by tauto)
    | exact h1.1
    | exact h1.2.1
    | exact h1.2.2 x (by tauto)
    | exact h1.2.2 _ (by tauto)
    | (apply h1; tauto)
    | (apply h1.2.2; tauto)
    | (simp only [List.length_cons]; omega)
    | omega
    | tauto
    | (simp only [U32] at *; omega)

set_option maxHeartbeats 2000000 in
lemma inv_execVSUM (p : Proc) (h : StackInv p) : StackInv (stateOf (execVSUM p)) := by
  unfold execVSUM
  unfold StackInv at h ⊢
  obtain ⟨h1, h2⟩ := h
  rcases hs : p.stack with _ | ⟨x1, _ | ⟨x2, _ | ⟨x3, rest⟩⟩⟩
  all_goals try rw [hs] at h1 h2
  all_goals try simp only [List.mem_cons] at h1
  all_goals try simp only [List.length_cons] at h2
  all_goals try simp [hs, stateOf]
  all_goals try (split_ifs <;> simp_all [stateOf])
  all_goals try (split_ifs <;> simp_all [stateOf])
  all_goals try (split_ifs <;> simp_all [stateOf])
  all_goals try (repeat' apply And.intro)
  all_goals try (
    intro x hx
    (try simp only [List.mem_cons] at hx)
    first
      | (rcases hx with rfl | rfl | rfl | rfl | hx)
      | (rcases hx with rfl | rfl | rfl | hx)
      | (rcases hx with rfl | rfl | hx)
      | (rcases hx with rfl | hx)
      | skip)
  all_goals first
    | exact Nat.mod_lt _ U32_pos
    | exact U32_pos
    | exact h1 x (by tauto)
    | exact h1 _ (by tauto)
    | exact h1.1
    | exact h1.2.1
    | exact h1.2.2 x (by tauto)
    | exact h1.2.2 _ (by tauto)
    | (apply h1; tauto)
    | (apply h1.2.2; tauto)
    | (simp only [List.length_cons]; omega)
    | omega
    | tauto
    | (simp only [U32] at *; omega)

set_option maxHeartbeats 2000000 in
lemma inv_execVAVG (p : Proc) (h : StackInv p) : StackInv (stateOf (execVAVG p)) := by
  unfold execVAVG
  unfold StackInv at h ⊢
  obtain ⟨h1, h2⟩ := h
  rcases hs : p.stack with _ | ⟨x1, _ | ⟨x2, _ | ⟨x3, rest⟩⟩⟩
  all_goals try rw [hs] at h1 h2
  all_goals try simp only [List.mem_cons] at h1
  all_goals try simp only [List.length_cons] at h2
  all_goals try simp [hs, stateOf]
  all_goals try (split_ifs <;> simp_all [stateOf])
  all_goals try (split_ifs <;> simp_all [stateOf])
  all_goals try (split_ifs <;> simp_all [stateOf])
  all_goals try (repeat' apply And.intro)
  all_goals try (
    intro x hx
    (try simp only [List.mem_cons] at hx)
    first
      | (rcases hx with rfl | rfl | rfl | rfl | hx)
      | (rcases hx with rfl | rfl | rfl | hx)
      | (rcases hx with rfl | rfl | hx)
      | (rcases hx with rfl | hx)
      | skip)
  all_goals first
    | exact Nat.mod_lt _ U32_pos
    | exact U32_pos
    | exact h1 x (by tauto)
    | exact h1 _ (by tauto)
    | exact h1.1
    | exact h1.2.1
    | exact h1.2.2 x (by tauto)
    | exact h1.2.2 _ (by tauto)
    | (apply h1; tauto)
    | (apply h1.2.2; tauto)
    | (simp only [List.length_cons]; omega)
    | omega
    | tauto
    | (simp only [U32] at *; omega)

set_option maxHeartbeats 2000000 in
lemma inv_execVSCALE (p : Proc) (h : StackInv p) : StackInv (stateOf (execVSCALE p)) := by
  unfold execVSCALE
  unfold StackInv at h ⊢
  obtain ⟨h1, h2⟩ := h
  rcases hs : p.stack with _ | ⟨x1, _ | ⟨x2, _ | ⟨x3, rest⟩⟩⟩
  all_goals try rw [hs] at h1 h2
  all_goals try simp only [List.mem_cons] at h1
  all_goals try simp only [List.length_cons] at h2
  all_goals try simp [hs, stateOf]
  all_goals try (split_ifs <;> simp_all [stateOf])
  all_goals try (split_ifs <;> simp_all [stateOf])
  all_goals try (split_ifs <;> simp_all [stateOf])
  all_goals try (repeat' apply And.intro)
  all_goals try (
    intro x hx
    (try simp only [List.mem_cons] at hx)
    first
      | (rcases hx with rfl | rfl | rfl | rfl | hx)
      | (rcases hx with rfl | rfl | rfl | hx)
      | (rcases hx with rfl | rfl | hx)
      | (rcases hx with rfl | hx)
      | skip)
  all_goals first
    | exact Nat.mod_lt _ U32_pos
    | exact U32_pos
    | exact h1 x (by tauto)
    | exact h1 _ (by tauto)
    | exact h1.1
    | exact h1.2.1
    | exact h1.2.2 x (by tauto)
    | exact h1.2.2 _ (by tauto)
    | (apply h1; tauto)
    | (apply h1.2.2; tauto)
    | (simp only [List.length_cons]; omega)
    | omega
    | tauto
    | (simp only [U32] at *; omega)

set_option maxHeartbeats 2000000 in
lemma inv_execVCOPY (p : Proc) (h : StackInv p) : StackInv (stateOf (execVCOPY p)) := by
  unfold execVCOPY
  unfold StackInv at h ⊢
  obtain ⟨h1, h2⟩ := h
  rcases hs : p.stack with _ | ⟨x1, _ | ⟨x2, _ | ⟨x3, rest⟩⟩⟩
  all_goals try rw [hs] at h1 h2
  all_goals try simp only [List.mem_cons] at h1
  all_goals try simp only [List.length_cons] at h2
  all_goals try simp [hs, stateOf]
  all_goals try (split_ifs <;> simp_all [stateOf])
  all_goals try (split_ifs <;> simp_all [stateOf])
  all_goals try (split_ifs <;> simp_all [stateOf])
  all_goals try (repeat' apply And.intro)
  all_goals try (
    intro x hx
    (try simp only [List.mem_cons] at hx)
    first
      | (rcases hx with rfl | rfl | rfl | rfl | hx)
      | (rcases hx with rfl | rfl | rfl | hx)
      | (rcases hx with rfl | rfl | hx)
      | (rcases hx with rfl | hx)
      | skip)
  all_goals first
    | exact Nat.mod_lt _ U32_pos
    | exact U32_pos
    | exact h1 x (by tauto)
    | exact h1 _ (by tauto)
    | exact h1.1
    | exact h1.2.1
    | exact h1.2.2 x (by tauto)
    | exact h1.2.2 _ (by tauto)
    | (apply h1; tauto)
    | (apply h1.2.2; tauto)
    | (simp only [List.length_cons]; omega)
    | omega
    | tauto
    | (simp only [U32] at *; omega)

set_option maxHeartbeats 2000000 in
lemma inv_execVSET (operand : Nat) (p : Proc) (h : StackInv p) : StackInv (stateOf (execVSET operand p)) := by
  unfold execVSET
  unfold StackInv at h ⊢
  obtain ⟨h1, h2⟩ := h
  rcases hs : p.stack with _ | ⟨x1, _ | ⟨x2, _ | ⟨x3, rest⟩⟩⟩
  all_goals try rw [hs] at h1 h2
  all_goals try simp only [List.mem_cons] at h1
  all_goals try simp only [List.length_cons] at h2
  all_goals try simp [hs, stateOf]
  all_goals try (split_ifs <;> simp_all [stateOf])
  all_goals try (split_ifs <;> simp_all [stateOf])
  all_goals try (split_ifs <;> simp_all [stateOf])
  all_goals try (repeat' apply And.intro)
  all_goals try (
    intro x hx
    (try simp only [List.mem_cons] at hx)
    first
      | (rcases hx with rfl | rfl | rfl | rfl | hx)
      | (rcases hx with rfl | rfl | rfl | hx)
      | (rcases hx with rfl | rfl | hx)
      | (rcases hx with rfl | hx)
      | skip)
  all_goals first
    | exact Nat.mod_lt _ U32_pos
    | exact U32_pos
    | exact h1 x (by tauto)
    | exact h1 _ (by tauto)
    | exact h1.1
    | exact h1.2.1
    | exact h1.2.2 x (by tauto)
    | exact h1.2.2 _ (by tauto)
    | (apply h1; tauto)
    | (apply h1.2.2; tauto)
    | (simp only [List.length_cons]; omega)
    | omega
    | tauto
    | (simp only [U32] at *; omega)

set_option maxHeartbeats 2000000 in
lemma inv_execVLOAD (p : Proc) (h : StackInv p) : StackInv (stateOf (execVLOAD p)) := by
  unfold execVLOAD
  unfold StackInv at h ⊢
  obtain ⟨h1, h2⟩ := h
  rcases hs : p.stack with _ | ⟨x1, _ | ⟨x2, _ | ⟨x3, rest⟩⟩⟩
  all_goals try rw [hs] at h1 h2
  all_goals try simp only [List.mem_cons] at h1
  all_goals try simp only [List.length_cons] at h2
  all_goals try simp [hs, stateOf]
  all_goals try (split_ifs <;> simp_all [stateOf])
  all_goals try (split_ifs <;> simp_all [stateOf])
  all_goals try (split_ifs <;> simp_all [stateOf])
  all_goals try (repeat' apply And.intro)
  all_goals try (
    intro x hx
    (try simp only [List.mem_cons] at hx)
    first
      | (rcases hx with rfl | rfl | rfl | rfl | hx)
      | (rcases hx with rfl | rfl | rfl | hx)
      | (rcases hx with rfl | rfl | hx)
      | (rcases hx with rfl | hx)
      | skip)
  all_goals first
    | exact Nat.mod_lt _ U32_pos
    | exact U32_pos
    | exact h1 x (by tauto)
    | exact h1 _ (by tauto)
    | exact h1.1
    | exact h1.2.1
    | exact h1.2.2 x (by tauto)
    | exact h1.2.2 _ (by tauto)
    | (apply h1; tauto)
    | (apply h1.2.2; tauto)
    | (simp only [List.length_cons]; omega)
    | omega
    | tauto
    | (simp only [U32] at *; omega)

set_option maxHeartbeats 2000000 in
lemma inv_execVSTORE (p : Proc) (h : StackInv p) : StackInv (stateOf (execVSTORE p)) := by
  unfold execVSTORE
  unfold StackInv at h ⊢
  obtain ⟨h1, h2⟩ := h
  rcases hs : p.stack with _ | ⟨x1, _ | ⟨x2, _ | ⟨x3, rest⟩⟩⟩
  all_goals try rw [hs] at h1 h2
  all_goals try simp only [List.mem_cons] at h1
  all_goals try simp only [List.length_cons] at h2
  all_goals try simp [hs, stateOf]
  all_goals try (split_ifs <;> simp_all [stateOf])
  all_goals try (split_ifs <;> simp_all [stateOf])
  all_goals try (split_ifs <;> simp_all [stateOf])
  all_goals try (repeat' apply And.intro)
  all_goals try (
    intro x hx
    (try simp only [List.mem_cons] at hx)
    first
      | (rcases hx with rfl | rfl | rfl | rfl | hx)
      | (rcases hx with rfl | rfl | rfl | hx)
      | (rcases hx with rfl | rfl | hx)
      | (rcases hx with rfl | hx)
      | skip)
  all_goals first
    | exact Nat.mod_lt _ U32_pos
    | exact U32_pos
    | exact h1 x (by tauto)
    | exact h1 _ (by tauto)
    | exact h1.1
    | exact h1.2.1
    | exact h1.2.2 x (by tauto)
    | exact h1.2.2 _ (by tauto)
    | (apply h1; tauto)
    | (apply h1.2.2; tauto)
    | (simp only [List.length_cons]; omega)
    | omega
    | tauto
    | (simp only [U32] at *; omega)

/-- Every dispatch branch preserves the data-stack invariant, on success and
on fault alike. -/
lemma execBody_inv (i : Instruction) (p : Proc) (h : StackInv p) :
    StackInv (stateOf (execBody i p)) := by
  unfold execBody
  split
  · exact inv_execHALT p h
  · exact inv_execPUSH i.operand p h
  · exact inv_execPOP p h
  · exact inv_execDUP p h
  · exact inv_execSWAP p h
  · exact inv_execADD p h
  · exact inv_execSUB p h
  · exact inv_execMUL p h
  · exact inv_execDIV p h
  · exact inv_execMOD p h
  · exact inv_execAND p h
  · exact inv_execOR p h
  · exact inv_execNOT p h
  · exact inv_execEQ p h
  · exact inv_execNE p h
  · exact inv_execLT p h
  · exact inv_execLE p h
  · exact inv_execGT p h
  · exact inv_execGE p h
  · exact inv_execJMP i.operand p h
  · exact inv_execJZ i.operand p h
  · exact inv_execJNZ i.operand p h
  · exact inv_execCALL i.operand p h
  · exact inv_execRET p h
  · exact inv_execLOAD p h
  · exact inv_execLOADB p h
  · exact inv_execSTORE p h
  · exact inv_execSTOREB p h
  · exact inv_execIN p h
  · exact inv_execOUT i.operand p h
  · exact inv_execINT i.operand p h
  · exact inv_execIRET p h
  · exact inv_execVADD p h
  · exact inv_execVSUB p h
  · exact inv_execVMUL p h
  · exact inv_execVDOT p h
  · exact inv_execVNORM p h
  · exact inv_execVMAX p h
  · exact inv_execVMIN p h
  · exact inv_execVSUM p h
  · exact inv_execVAVG p h
  · exact inv_execVSCALE p h
  · exact inv_execVCOPY p h
  · exact inv_execVSET i.operand p h
  · exact inv_execVLOAD p h
  · exact inv_execVSTORE p h
  · exact h

/-- StackProcessor.execute_instruction preserves the data-stack invariant
(stack capacity and stack content are untouched by the except clause and the
PC increment). -/
lemma execute_instruction_inv (i : Instruction) (p : Proc) (h : StackInv p) :
    StackInv (execute_instruction i p).1 := by
  have hb := execBody_inv i p h
  unfold execute_instruction
  rcases he : execBody i p with ⟨o, q⟩ | ⟨e, q⟩
  · rw [he] at hb
    cases o <;> simp_all [stateOf, StackInv]
  · rw [he] at hb
    simp_all [stateOf, StackInv]


/-! ## Step-level timing and dispatch lemmas -/

def cyclesOfList (l : List Instruction) : Nat :=
  (l.map (fun i => (instructionCycles i.opcode).getD 0)).sum

def optCost (p : Proc) : Nat :=
  match p.current_instruction with
  | none => 0
  | some i => (instructionCycles i.opcode).getD 0

def psi (p : Proc) : Nat := p.cycle_count + p.remaining_cycles

def cycleInv (p : Proc) : Prop :=
  match p.current_instruction with
  | none => p.remaining_cycles = 0
  | some _ => 1 ≤ p.remaining_cycles

lemma instructionCycles_pos {op c : Nat} (h : instructionCycles op = some c) : 1 ≤ c := by
  unfold instructionCycles at h
  split at h
  all_goals first
    | (cases h; omega)
    | exact Option.noConfusion h

lemma dispatchInterrupt_timing (q : Proc) :
    (dispatchInterrupt q).cycle_count = q.cycle_count ∧
    (dispatchInterrupt q).remaining_cycles = q.remaining_cycles ∧
    (dispatchInterrupt q).current_instruction = q.current_instruction := by
  unfold dispatchInterrupt
  split_ifs <;> try simp
  rcases q.pending_interrupts with _ | ⟨⟨v, d⟩, rest⟩ <;> simp
  rcases dictGet q.interrupt_handlers v <;> simp

@[simp] lemma ioPhase_cycle_count (p : Proc) : (ioPhase p).cycle_count = p.cycle_count := rfl
@[simp] lemma ioPhase_remaining (p : Proc) : (ioPhase p).remaining_cycles = p.remaining_cycles := rfl
@[simp] lemma ioPhase_current (p : Proc) : (ioPhase p).current_instruction = p.current_instruction := rfl
@[simp] lemma ioPhase_pc (p : Proc) : (ioPhase p).pc = p.pc := rfl
@[simp] lemma ioPhase_imem (p : Proc) : (ioPhase p).instruction_memory = p.instruction_memory := rfl
@[simp] lemma ioPhase_state (p : Proc) : (ioPhase p).state = p.state := rfl

lemma tick_cycles (q : Proc) (i : Instruction)
    (hq : q.current_instruction = some i) (h1 : 1 ≤ q.remaining_cycles) :
    psi (tick q).1 + optCost q = psi q + optCost (tick q).1 + cyclesOfList (tick q).2.2
    ∧ cycleInv (tick q).1 := by
  unfold tick
  simp only [hq]
  by_cases hrem : q.remaining_cycles - 1 = 0
  · rw [if_pos hrem]
    have hf := execute_instruction_frame i
      { q with cycle_count := q.cycle_count + 1, current_instruction := none,
               remaining_cycles := 0 }
    simp only [frameOK] at hf
    obtain ⟨hf1, hf2, hf3, hf4, hf5, hf6, hf7⟩ := hf
    constructor
    · simp [psi, optCost, hq, cyclesOfList, hf3, hf4, hf5]
      omega
    · simp [cycleInv, hf4, hf5]
  · rw [if_neg hrem]
    constructor
    · simp [psi, optCost, hq, cyclesOfList]
      omega
    · simp [cycleInv, hq]
      omega

lemma stepT_cycles (p : Proc) (r : Proc × Bool × List Instruction)
    (hI : cycleInv p) (hr : stepT p = some r) :
    psi r.1 + optCost p = psi p + optCost r.1 + cyclesOfList r.2.2 ∧ cycleInv r.1 := by
  unfold stepT at hr
  by_cases hH : p.state = ProcessorState.HALTED
  · rw [if_pos hH] at hr
    simp only [Option.some.injEq] at hr
    subst hr
    simp [cyclesOfList]
    exact hI
  · rw [if_neg hH] at hr
    simp only [ioPhase_current] at hr
    cases hc : p.current_instruction with
    | none =>
      simp only [hc] at hr
      by_cases hend : (ioPhase p).pc ≥ (ioPhase p).instruction_memory.length
      · rw [if_pos hend] at hr
        simp only [Option.some.injEq] at hr
        subst hr
        constructor
        · simp [psi, optCost, hc, cyclesOfList, ioPhase]
        · simp only [cycleInv, hc] at hI
          simp [cycleInv, hc, ioPhase, hI]
      · rw [if_neg hend] at hr
        cases hfetch : (dispatchInterrupt (ioPhase p)).instruction_memory.get?
            (dispatchInterrupt (ioPhase p)).pc with
        | none =>
          rw [hfetch] at hr
          exact Option.noConfusion hr
        | some instr =>
          rw [hfetch] at hr
          cases hcy : instructionCycles instr.opcode with
          | none =>
            simp only [hcy] at hr
            exact Option.noConfusion hr
          | some cost =>
            simp only [hcy, Option.some.injEq] at hr
            subst hr
            have hcost1 := instructionCycles_pos hcy
            obtain ⟨hid, hinv⟩ := tick_cycles
              { dispatchInterrupt (ioPhase p) with
                  current_instruction := some instr, remaining_cycles := cost }
              instr (by simp) (by simp; omega)
            refine ⟨?_, hinv⟩
            obtain ⟨hd1, hd2, hd3⟩ := dispatchInterrupt_timing (ioPhase p)
            simp only [psi, optCost, hc, cyclesOfList, hcy] at hid ⊢
            simp only [cycleInv, hc] at hI
            simp only [hd1, hd2, hd3, ioPhase_cycle_count, ioPhase_remaining] at hid ⊢
            simp at hid ⊢
            omega
    | some i =>
      simp only [hc, Option.some.injEq] at hr
      subst hr
      simp only [cycleInv, hc] at hI
      obtain ⟨hid, hinv⟩ := tick_cycles (ioPhase p) i (by simp [hc]) (by simp; omega)
      refine ⟨?_, hinv⟩
      simp only [psi, optCost, hc, cyclesOfList] at hid ⊢
      simp only [ioPhase_cycle_count, ioPhase_remaining, ioPhase_current, hc] at hid
      (try simp only [ioPhase_cycle_count, ioPhase_remaining, ioPhase_current, hc])
      (try simp at hid)
      omega

lemma cyclesOfList_nil : cyclesOfList [] = 0 := by
  simp [cyclesOfList]

lemma cyclesOfList_append (a b : List Instruction) :
    cyclesOfList (a ++ b) = cyclesOfList a + cyclesOfList b := by
  simp [cyclesOfList]

lemma runLoopT_cycles (fuel : Nat) :
    ∀ (p : Proc) (acc : List Instruction) (q : Proc) (tr : List Instruction),
    cycleInv p → runLoopT fuel p acc = some (q, tr) →
    psi q + optCost p + cyclesOfList acc = psi p + optCost q + cyclesOfList tr
    ∧ cycleInv q := by
  induction fuel with
  | zero =>
    intro p acc q tr hI hr
    simp only [runLoopT, Option.some.injEq, Prod.mk.injEq] at hr
    obtain ⟨rfl, rfl⟩ := hr
    exact ⟨by omega, hI⟩
  | succ f ih =>
    intro p acc q tr hI hr
    simp only [runLoopT] at hr
    cases hs : stepT p with
    | none =>
      rw [hs] at hr
      exact Option.noConfusion hr
    | some r =>
      obtain ⟨r1, cont, tr0⟩ := r
      rw [hs] at hr
      obtain ⟨hstep, hI2⟩ := stepT_cycles p (r1, cont, tr0) hI hs
      simp only at hstep hI2
      by_cases hcont : cont = true
      · simp only [hcont, if_true] at hr
        obtain ⟨ih1, ih2⟩ := ih r1 (acc ++ tr0) q tr hI2 hr
        rw [cyclesOfList_append] at ih1
        exact ⟨by omega, ih2⟩
      · simp only [hcont, if_false] at hr
        simp only [Bool.not_eq_true] at hcont
        simp only [hcont, Bool.false_eq_true, if_false, Option.some.injEq,
          Prod.mk.injEq] at hr
        obtain ⟨rfl, rfl⟩ := hr
        rw [cyclesOfList_append]
        exact ⟨by omega, hI2⟩


/-- With an empty I/O schedule the I/O phase is the identity. -/
lemma ioPhase_nil (p : Proc) (h : p.io_schedule = []) : ioPhase p = p := by
  unfold ioPhase
  rw [h]
  simp only [ioUpdate, List.map_nil, List.append_nil]
  rw [← h]

@[simp] lemma ioPhase_pending (p : Proc) :
    (ioPhase p).pending_interrupts =
      p.pending_interrupts ++ (ioUpdate p.io_schedule p.cycle_count).2 := rfl

/-- Interrupt entry does not happen when disabled, inside a handler, or with
nothing pending. -/
lemma dispatchInterrupt_noop (p : Proc)
    (h : p.interrupts_enabled = false ∨ p.in_interrupt = true ∨ p.pending_interrupts = []) :
    dispatchInterrupt p = p := by
  unfold dispatchInterrupt
  rcases h with h | h | h <;> simp [h] <;> split_ifs <;> simp [h] <;>
    (try (rcases hp : p.pending_interrupts with _ | ⟨⟨v, d⟩, rest⟩ <;> simp [hp]))

/-- A tick never pops the pending-interrupt queue. -/
lemma tick_pending (q : Proc) : (tick q).1.pending_interrupts = q.pending_interrupts := by
  unfold tick
  cases hq : q.current_instruction with
  | none => simp [hq]
  | some i =>
    simp only [hq]
    split_ifs with h
    · have hf := (execute_instruction_frame i
        { q with cycle_count := q.cycle_count + 1, current_instruction := none,
                 remaining_cycles := 0 })
      simp only [frameOK] at hf
      simp [hf.1]
    · simp


/-! ## The claims -/

def negProc : Proc := { initProc [⟨Op.NEG, 0⟩] [] with stack := [5] }

/-- C1: ADD, SUB and MUL on the data stack push the result reduced modulo
2 to the 32, and the elementwise vector operations V_ADD, V_SUB, V_MUL
produce elementwise results reduced modulo 2 to the 32. The NEG part of the
claim is a code bug: the dispatch chain has no NEG branch, so executing NEG
(here with 5 on the stack) raises the unknown-instruction ProcessorError
and halts with the stack unchanged instead of pushing the wrapped negation. -/
theorem c1_arith_wraps_but_neg_faults :
    (∀ (p : Proc) (a b : Nat) (rest : List Nat),
        p.stack = b :: a :: rest → rest.length < p.stack_size →
        (execute_instruction ⟨Op.ADD, 0⟩ p).1.stack = (a + b) % U32 :: rest
        ∧ (execute_instruction ⟨Op.SUB, 0⟩ p).1.stack = wrapI ((a : Int) - (b : Int)) :: rest
        ∧ (execute_instruction ⟨Op.MUL, 0⟩ p).1.stack = a * b % U32 :: rest)
    ∧ (∀ (regs : List (List Nat)) (r1 r2 rr : Nat), rr < regs.length →
        (vector_add regs r1 r2 rr).getD rr [] =
          (List.zipWith (fun a b => (a + b) % U32)
            (get_vector regs r1) (get_vector regs r2)).take max_vector_length
        ∧ (vector_sub regs r1 r2 rr).getD rr [] =
          (List.zipWith (fun a b => wrapI ((a : Int) - (b : Int)))
            (get_vector regs r1) (get_vector regs r2)).take max_vector_length
        ∧ (vector_mul regs r1 r2 rr).getD rr [] =
          (List.zipWith (fun a b => a * b % U32)
            (get_vector regs r1) (get_vector regs r2)).take max_vector_length)
    ∧ execute_instruction ⟨Op.NEG, 0⟩ negProc =
        ({ negProc with state := ProcessorState.HALTED }, false) := by
  refine ⟨fun p a b rest h hcap => ?_, fun regs r1 r2 rr hrr => ?_, by decide⟩
  · refine ⟨?_, ?_, ?_⟩ <;>
      simp [execute_instruction, execBody, execADD, execSUB, execMUL,
        Op.ADD, Op.SUB, Op.MUL, h, Nat.not_le.mpr hcap, wrapI_mod]
  · refine ⟨?_, ?_, ?_⟩ <;>
      simp [vector_add, vector_sub, vector_mul, load_vector, hrr, getD_set_self]

/-- C1 witness: ADD at a concrete input. -/
theorem c1_witness :
    ({ initProc [] [] with stack := [3, 5] } : Proc).stack = 3 :: 5 :: [] ∧
    ([] : List Nat).length < ({ initProc [] [] with stack := [3, 5] } : Proc).stack_size ∧
    (execute_instruction ⟨Op.ADD, 0⟩ { initProc [] [] with stack := [3, 5] }).1.stack
      = (5 + 3) % U32 :: [] :=
  ⟨rfl, by decide, (c1_arith_wraps_but_neg_faults.1 _ 5 3 [] rfl (by decide)).1⟩

/-- C2 support -/
def crashProc : Proc := initProc [⟨0xFF, 0⟩] []

/-- C2: every ProcessorError raised in the try block of execute_instruction
(stack overflow, underflow, out-of-range memory address, DIV or MOD by zero,
an unimplemented-but-declared opcode such as NEG, IRET with an empty call
stack) moves the processor to HALTED with no exception, a halted processor
makes step and run return normally, BUT the claim fails for an opcode byte
outside the declared enumeration: the Opcode conversion in the cycle-table
lookup of step raises an uncaught ValueError that escapes run to the host
(the final conjunct evaluates run on such a program to the embedded
host-exception result none). -/
theorem c2_faults_halt_but_bad_byte_escapes :
    (∀ (i : Instruction) (p q : Proc) (e : Unit),
        execBody i p = EStateM.Result.error e q →
        execute_instruction i p = ({ q with state := ProcessorState.HALTED }, false))
    ∧ (∀ (p : Proc) (v : Nat), p.stack_size ≤ p.stack.length →
        execute_instruction ⟨Op.PUSH, v⟩ p = ({ p with state := ProcessorState.HALTED }, false))
    ∧ (∀ (p : Proc), p.stack = [] →
        execute_instruction ⟨Op.ADD, 0⟩ p = ({ p with state := ProcessorState.HALTED }, false))
    ∧ (∀ (p : Proc) (a : Nat) (rest : List Nat), p.stack = a :: rest →
        p.data_memory.length < a + 4 →
        execute_instruction ⟨Op.LOAD, 0⟩ p =
          ({ p with stack := rest, state := ProcessorState.HALTED }, false))
    ∧ (∀ (p : Proc) (a : Nat) (rest : List Nat), p.stack = 0 :: a :: rest →
        execute_instruction ⟨Op.DIV, 0⟩ p =
          ({ p with stack := rest, state := ProcessorState.HALTED }, false))
    ∧ (∀ (p : Proc) (a : Nat) (rest : List Nat), p.stack = 0 :: a :: rest →
        execute_instruction ⟨Op.MOD, 0⟩ p =
          ({ p with stack := rest, state := ProcessorState.HALTED }, false))
    ∧ (∀ (p : Proc) (v : Nat),
        execute_instruction ⟨Op.NEG, v⟩ p = ({ p with state := ProcessorState.HALTED }, false))
    ∧ (∀ (p : Proc), p.call_stack = [] →
        execute_instruction ⟨Op.IRET, 0⟩ p = ({ p with state := ProcessorState.HALTED }, false))
    ∧ (∀ (p : Proc), p.state = ProcessorState.HALTED → stepT p = some (p, false, []))
    ∧ (∀ (p : Proc) (fuel : Nat), p.state = ProcessorState.HALTED →
        run p fuel = some { state := ProcessorState.HALTED,
                            instructions_executed := p.instruction_count,
                            cycles_executed := 0, final_pc := p.pc,
                            stack_size := p.stack.length, output := p.output_buffer })
    ∧ run crashProc 10 = none := by
  refine ⟨?_, ?_, ?_, ?_, ?_, ?_, ?_, ?_, ?_, ?_, by decide⟩
  · intro i p q e h
    unfold execute_instruction
    rw [h]
  · intro p v h
    simp [execute_instruction, execBody, execPUSH, Op.PUSH, h]
  · intro p h
    simp [execute_instruction, execBody, execADD, Op.ADD, h]
  · intro p a rest h hm
    simp [execute_instruction, execBody, execLOAD, Op.LOAD, read_memory_word, h, hm]
  · intro p a rest h
    simp [execute_instruction, execBody, execDIV, Op.DIV, h]
  · intro p a rest h
    simp [execute_instruction, execBody, execMOD, Op.MOD, h]
  · intro p v
    simp [execute_instruction, execBody, Op.NEG]
  · intro p h
    simp [execute_instruction, execBody, execIRET, Op.IRET, h]
  · intro p h
    simp [stepT, h]
  · intro p fuel h
    cases fuel with
    | zero => simp [run, runT, runLoopT, h]
    | succ f => simp [run, runT, runLoopT, stepT, h]

/-- C2 witness: stack underflow on ADD at a concrete input halts. -/
theorem c2_witness :
    (initProc [] [] : Proc).stack = [] ∧
    execute_instruction ⟨Op.ADD, 0⟩ (initProc [] []) =
      ({ initProc [] [] with state := ProcessorState.HALTED }, false) :=
  ⟨rfl, c2_faults_halt_but_bad_byte_escapes.2.2.1 (initProc [] []) rfl⟩

/-- C3 support: a concrete dispatch scenario. -/
def irqProc : Proc :=
  { initProc [⟨Op.PUSH, 1⟩, ⟨Op.PUSH, 2⟩] [] with
      interrupts_enabled := true,
      pending_interrupts := [(0, 65)],
      interrupt_handlers := [(0, 1)] }

/-- C3: at an instruction boundary (no instruction in flight) with
interrupts enabled, not inside a handler and a non-empty pending queue, one
step pops the oldest pending pair in FIFO order, pushes the current PC on
the call stack, loads PC with the installed handler address and sets
in_interrupt; when an instruction is in flight the pending queue is only
appended to (never popped), and interrupt entry is the identity when
disabled, already inside a handler, or with nothing pending. -/
theorem c3_dispatch_between_instructions :
    (∀ (p : Proc) (v d hAddr c : Nat) (restPend : List (Nat × Nat)) (instr : Instruction),
        p.state ≠ ProcessorState.HALTED →
        p.current_instruction = none →
        p.io_schedule = [] →
        p.pc < p.instruction_memory.length →
        p.interrupts_enabled = true →
        p.in_interrupt = false →
        p.pending_interrupts = (v, d) :: restPend →
        dictGet p.interrupt_handlers v = some hAddr →
        p.instruction_memory.get? hAddr = some instr →
        instructionCycles instr.opcode = some c →
        2 ≤ c →
        stepT p = some ({ p with
          pending_interrupts := restPend,
          call_stack := p.pc :: p.call_stack,
          pc := hAddr,
          in_interrupt := true,
          current_instruction := some instr,
          remaining_cycles := c - 1,
          cycle_count := p.cycle_count + 1 }, true, []))
    ∧ (∀ (p : Proc) (i : Instruction) (r : Proc × Bool × List Instruction),
        p.state ≠ ProcessorState.HALTED →
        p.current_instruction = some i →
        stepT p = some r →
        r.1.pending_interrupts =
          p.pending_interrupts ++ (ioUpdate p.io_schedule p.cycle_count).2)
    ∧ (∀ (p : Proc),
        p.interrupts_enabled = false ∨ p.in_interrupt = true ∨ p.pending_interrupts = [] →
        dispatchInterrupt p = p) := by
  refine ⟨?_, ?_, dispatchInterrupt_noop⟩
  · intro p v d hAddr c restPend instr hst hcur hio hpc hen hin hpend hh hfetch hcost hc2
    have hc1 : ¬(c - 1 = 0) := by omega
    have hnl : ¬(p.pc ≥ p.instruction_memory.length) := Nat.not_le.mpr hpc
    unfold stepT
    rw [if_neg (by simpa using hst)]
    rw [ioPhase_nil p hio]
    simp only [hcur, hnl, if_neg hnl, dispatchInterrupt, hen, hin, hpend, hh,
      hfetch, hcost, tick, Bool.not_false, Bool.and_self, if_true]
    simp [hc1]
  · intro p i r hst hcur hr
    unfold stepT at hr
    rw [if_neg (by simpa using hst)] at hr
    simp only [ioPhase_current, hcur, Option.some.injEq] at hr
    subst hr
    rw [tick_pending]
    exact ioPhase_pending p

/-- C3 witness: a concrete dispatch of vector 0 to handler address 1. -/
theorem c3_witness :
    irqProc.pending_interrupts = ((0 : Nat), (65 : Nat)) :: [] ∧
    dictGet irqProc.interrupt_handlers 0 = some 1 ∧
    stepT irqProc = some ({ irqProc with
      pending_interrupts := [],
      call_stack := irqProc.pc :: irqProc.call_stack,
      pc := 1,
      in_interrupt := true,
      current_instruction := some ⟨Op.PUSH, 2⟩,
      remaining_cycles := 2 - 1,
      cycle_count := irqProc.cycle_count + 1 }, true, []) :=
  ⟨rfl, by decide,
    c3_dispatch_between_instructions.1 irqProc 0 65 1 2 [] ⟨Op.PUSH, 2⟩
      (by decide) rfl rfl (by decide) rfl rfl rfl (by decide) rfl rfl (by decide)⟩

/-- C4: JMP always, JZ on a popped zero, JNZ on a popped non-zero, CALL,
RET with a return address, and IRET with a return address set PC absolutely
and skip the shared PC increment; a not-taken JZ or JNZ falls through to
PC + 1. -/
theorem c4_taken_branches_set_pc_absolutely (p : Proc) (t : Nat) :
    (execute_instruction ⟨Op.JMP, t⟩ p = ({ p with pc := t }, true))
    ∧ (∀ rest, p.stack = 0 :: rest →
        execute_instruction ⟨Op.JZ, t⟩ p = ({ p with stack := rest, pc := t }, true))
    ∧ (∀ c rest, p.stack = c :: rest → c ≠ 0 →
        execute_instruction ⟨Op.JZ, t⟩ p = ({ p with stack := rest, pc := p.pc + 1 }, true))
    ∧ (∀ c rest, p.stack = c :: rest → c ≠ 0 →
        execute_instruction ⟨Op.JNZ, t⟩ p = ({ p with stack := rest, pc := t }, true))
    ∧ (∀ rest, p.stack = 0 :: rest →
        execute_instruction ⟨Op.JNZ, t⟩ p = ({ p with stack := rest, pc := p.pc + 1 }, true))
    ∧ (execute_instruction ⟨Op.CALL, t⟩ p =
        ({ p with call_stack := (p.pc + 1) :: p.call_stack, pc := t }, true))
    ∧ (∀ r cs, p.call_stack = r :: cs →
        execute_instruction ⟨Op.RET, 0⟩ p = ({ p with call_stack := cs, pc := r }, true))
    ∧ (∀ r cs, p.call_stack = r :: cs →
        execute_instruction ⟨Op.IRET, 0⟩ p =
          ({ p with call_stack := cs, pc := r, in_interrupt := false }, true)) := by
  refine ⟨?_, fun rest h => ?_, fun c rest h hc => ?_, fun c rest h hc => ?_,
    fun rest h => ?_, ?_, fun r cs h => ?_, fun r cs h => ?_⟩ <;>
    simp [execute_instruction, execBody, execJMP, execJZ, execJNZ, execCALL,
      execRET, execIRET, Op.JMP, Op.JZ, Op.JNZ, Op.CALL, Op.RET, Op.IRET, *]

/-- C4 witness: RET at a concrete input pops the return address into PC. -/
theorem c4_witness :
    ({ initProc [] [] with stack := [0], call_stack := [7] } : Proc).call_stack = 7 :: [] ∧
    execute_instruction ⟨Op.RET, 0⟩ { initProc [] [] with stack := [0], call_stack := [7] } =
      ({ initProc [] [] with stack := [0], call_stack := [], pc := 7 }, true) :=
  ⟨rfl, by
    have h := (c4_taken_branches_set_pc_absolutely
      { initProc [] [] with stack := [0], call_stack := [7] } 0).2.2.2.2.2.2.1 7 [] rfl
    simpa using h⟩

def cutProc : Proc := initProc [⟨Op.ADD, 0⟩] []
def haltProc : Proc := initProc [⟨Op.HALT, 0⟩] []

/-- C5 counterexample: a run of a single 3-cycle ADD with a budget of one
cycle reports cycles_executed = 1 while no instruction completed, so the sum
of completed-instruction costs is 0 and the claimed equality fails. -/
theorem c5_budget_cut_counterexample :
    (runT cutProc 1).map (fun w => (w.1.cycles_executed, cyclesOfList w.2.2)) = some (1, 0)
    ∧ (1 : Nat) ≠ 0 :=
  ⟨by decide, by decide⟩

/-- C5 as amended: for every run that starts at an instruction boundary
and ends at an instruction boundary (no instruction in flight), the sum of
the per-opcode cycle costs of the completed instructions equals the
cycles_executed reported by run. -/
theorem c5_cycle_accounting_at_boundaries (p : Proc) (maxc : Nat) (res : RunResult)
    (q : Proc) (tr : List Instruction)
    (hcur : p.current_instruction = none) (hrem : p.remaining_cycles = 0)
    (hr : runT p maxc = some (res, q, tr)) (hq : q.current_instruction = none) :
    res.cycles_executed = cyclesOfList tr := by
  have hI : cycleInv p := by simp [cycleInv, hcur, hrem]
  unfold runT at hr
  cases hl : runLoopT maxc p [] with
  | none =>
    rw [hl] at hr
    exact Option.noConfusion hr
  | some w =>
    rw [hl] at hr
    simp only [Option.some.injEq, Prod.mk.injEq] at hr
    obtain ⟨hres, rfl, rfl⟩ := hr
    obtain ⟨hid, hIq⟩ := runLoopT_cycles maxc p [] w.1 w.2 hI (by rw [hl])
    have hq0 : w.1.remaining_cycles = 0 := by
      simp only [cycleInv, hq] at hIq
      exact hIq
    have hce : res.cycles_executed = w.1.cycle_count - p.cycle_count := by
      rw [← hres]
    simp only [psi, optCost, hcur, hq, cyclesOfList_nil] at hid
    rw [hce]
    omega

def haltRes : RunResult :=
  { state := ProcessorState.HALTED, instructions_executed := 1, cycles_executed := 1,
    final_pc := 0, stack_size := 0, output := [] }

def haltFinal : Proc :=
  { haltProc with state := ProcessorState.HALTED, cycle_count := 1, instruction_count := 1 }

/-- C5 witness: a HALT-only run completes 1 instruction in 1 cycle. -/
theorem c5_witness :
    haltProc.current_instruction = none ∧ haltProc.remaining_cycles = 0 ∧
    runT haltProc 10 = some (haltRes, haltFinal, [⟨Op.HALT, 0⟩]) ∧
    haltFinal.current_instruction = none ∧
    haltRes.cycles_executed = cyclesOfList [⟨Op.HALT, 0⟩] :=
  ⟨rfl, rfl, by decide, rfl,
    c5_cycle_accounting_at_boundaries haltProc 10 haltRes haltFinal [⟨Op.HALT, 0⟩]
      rfl rfl (by decide) rfl⟩


def c6Proc : Proc := { initProc [] [] with stack := [5] }

/-- C6 counterexample: with 5 on the stack, OUT 3 appends 5 to the output
buffer, and a following IN 3 pushes 0, not the written value. -/
theorem c6_out_in_counterexample :
    (execute_instruction ⟨Op.OUT, 3⟩ c6Proc).1.output_buffer = [5]
    ∧ (execute_instruction ⟨Op.IN, 3⟩ (execute_instruction ⟨Op.OUT, 3⟩ c6Proc).1).1.stack = [0] := by
  decide

/-- C6 as amended: OUT k for any k at least 3 appends the popped word raw
to the output buffer and touches no port register; IN ignores its port
operand and pushes the next input-buffer value, or 0 when the buffer is
empty; the IOController functions write_port and read_port do implement
last-written word-register semantics for ports at least 3, but the
processor OUT and IN branches never invoke them. -/
theorem c6_ports_buffers_and_registers :
    (∀ (p : Proc) (v k : Nat) (rest : List Nat), p.stack = v :: rest → 3 ≤ k →
        execute_instruction ⟨Op.OUT, k⟩ p =
          ({ p with stack := rest, output_buffer := p.output_buffer ++ [v],
                    pc := p.pc + 1 }, true))
    ∧ (∀ (p : Proc) (k : Nat), p.input_buffer = [] → p.stack.length < p.stack_size →
        execute_instruction ⟨Op.IN, k⟩ p = ({ p with stack := 0 :: p.stack, pc := p.pc + 1 }, true))
    ∧ (∀ (p : Proc) (k v : Nat) (rest : List Nat), p.input_buffer = v :: rest →
        p.stack.length < p.stack_size →
        execute_instruction ⟨Op.IN, k⟩ p =
          ({ p with input_buffer := rest, stack := v % U32 :: p.stack, pc := p.pc + 1 }, true))
    ∧ (∀ (io : IOCtl) (k v : Nat), 3 ≤ k → read_port (write_port io k v) k = (v, write_port io k v))
    ∧ (∀ (io : IOCtl) (k : Nat), 3 ≤ k → dictGet io.ports k = none → (read_port io k).1 = 0) := by
  refine ⟨?_, ?_, ?_, ?_, ?_⟩
  · intro p v k rest h hk
    have h1 : k ≠ 1 := by omega
    have h0 : k ≠ 0 := by omega
    have h2 : k ≠ 2 := by omega
    simp [execute_instruction, execBody, execOUT, executeOUT, Op.OUT, h, h0, h1, h2]
  · intro p k h hcap
    simp [execute_instruction, execBody, execIN, Op.IN, h, Nat.not_le.mpr hcap]
  · intro p k v rest h hcap
    simp [execute_instruction, execBody, execIN, Op.IN, h, Nat.not_le.mpr hcap]
  · intro io k v hk
    have h1 : k ≠ 1 := by omega
    have h0 : k ≠ 0 := by omega
    simp [read_port, write_port, dictGet, dictSet, h0, h1]
  · intro io k hk hnone
    have h0 : k ≠ 0 := by omega
    simp [read_port, hnone, h0]

/-- C6 witness: OUT 7 at a concrete input appends the raw word. -/
theorem c6_witness :
    ({ initProc [] [] with stack := [9] } : Proc).stack = 9 :: [] ∧ 3 ≤ 7 ∧
    execute_instruction ⟨Op.OUT, 7⟩ { initProc [] [] with stack := [9] } =
      ({ initProc [] [] with stack := [], output_buffer := [9], pc := 1 }, true) :=
  ⟨rfl, by decide, by
    have h := c6_ports_buffers_and_registers.1 { initProc [] [] with stack := [9] } 9 7 []
      rfl (by decide)
    simpa using h⟩

/-- C7: packing an 8-bit opcode with a 24-bit operand into the 32-bit word
(operand shifted left 8) or opcode and decoding that word through the
byte-level serialization returns exactly the original pair. -/
theorem c7_roundtrip_encoding (o v : Nat) (ho : o < 256) (hv : v < 16777216) :
    (Instruction.to_bytes ⟨o, v⟩).bind Instruction.from_bytes = some ⟨o, v⟩ := by
  have hw : (v <<< 8) ||| o = v * 256 + o := by
    rw [Nat.shiftLeft_eq]
    have h2 : v * 2 ^ 8 = 2 ^ 8 * v := Nat.mul_comm _ _
    rw [h2, ← Nat.mul_add_lt_is_or ho v]
    norm_num
    exact Nat.mul_comm 256 v
  have hlt : v * 256 + o < U32 := by unfold U32; omega
  simp only [Instruction.to_bytes, Instruction.from_bytes, hw, if_pos hlt, Option.bind_some]
  have hmask : ∀ x : Nat, x &&& 0xFF = x % 256 := by
    intro x
    have := Nat.and_pow_two_sub_one_eq_mod x 8
    norm_num at this
    exact this
  have hmask2 : ∀ x : Nat, x &&& 0xFFFFFF = x % 16777216 := by
    intro x
    have := Nat.and_pow_two_sub_one_eq_mod x 24
    norm_num at this
    exact this
  have hshift : ∀ x : Nat, x >>> 8 = x / 256 := by
    intro x
    have := Nat.shiftRight_eq_div_pow x 8
    norm_num at this
    exact this
  simp only [Option.bind, Option.some.injEq, Instruction.mk.injEq]
  refine ⟨?_, ?_⟩ <;> simp only [hmask, hmask2, hshift] <;> omega

/-- C7 witness: the OUT opcode with operand 12345 round-trips. -/
theorem c7_witness :
    (0x61 : Nat) < 256 ∧ (12345 : Nat) < 16777216 ∧
    (Instruction.to_bytes ⟨0x61, 12345⟩).bind Instruction.from_bytes = some ⟨0x61, 12345⟩ :=
  ⟨by decide, by decide, c7_roundtrip_encoding 0x61 12345 (by decide) (by decide)⟩

def c8regs : List (List Nat) := [[1, 2], [], [], [], [], [], [], []]

/-- C8 counterexample: V_ADD with out-of-range source register 8 and
in-range destination 0 overwrites destination register 0 with the empty
vector, so not every register is left unchanged. -/
theorem c8_source_register_counterexample :
    (8 : Nat) ≥ 8 ∧ vector_add c8regs 8 0 0 ≠ c8regs := by
  decide

/-- C8 as amended: a write to an out-of-range register index (destination
of load_vector, V_ADD, V_SUB, V_MUL, V_SCALE, V_COPY) is a silent no-op, an
out-of-range register reads as the empty vector, V_SET with an out-of-range
register or element index is a silent no-op; but an elementwise operation
with an out-of-range source and in-range destination clears the
destination register. -/
theorem c8_register_clamping :
    (∀ (regs : List (List Nat)) (r1 r2 rr : Nat) (elems : List Nat),
        regs.length = 8 → 8 ≤ rr →
        load_vector regs rr elems = regs
        ∧ vector_add regs r1 r2 rr = regs
        ∧ vector_sub regs r1 r2 rr = regs
        ∧ vector_mul regs r1 r2 rr = regs
        ∧ vector_scale regs r1 r2 rr = regs
        ∧ vector_copy regs r1 rr = regs)
    ∧ (∀ (regs : List (List Nat)) (r : Nat), regs.length = 8 → 8 ≤ r →
        get_vector regs r = [])
    ∧ (∀ (regs : List (List Nat)) (r idx v : Nat), regs.length = 8 → 8 ≤ r →
        vector_set regs r idx v = regs)
    ∧ (∀ (regs : List (List Nat)) (r idx v : Nat), (regs.getD r []).length ≤ idx →
        vector_set regs r idx v = regs)
    ∧ (∀ (regs : List (List Nat)) (r1 r2 rr : Nat), regs.length = 8 → 8 ≤ r1 → rr < 8 →
        vector_add regs r1 r2 rr = regs.set rr []) := by
  refine ⟨?_, ?_, ?_, ?_, ?_⟩
  · intro regs r1 r2 rr elems hlen hrr
    have h : ¬(rr < regs.length) := by omega
    refine ⟨?_, ?_, ?_, ?_, ?_, ?_⟩ <;>
      simp [load_vector, vector_add, vector_sub, vector_mul, vector_scale,
        vector_copy, h]
  · intro regs r hlen hr
    simp [get_vector, show ¬(r < regs.length) from by omega]
  · intro regs r idx v hlen hr
    simp [vector_set, show ¬(r < regs.length) from by omega]
  · intro regs r idx v hidx
    unfold vector_set
    by_cases h1 : r < regs.length
    · have hg : regs.getD r [] = regs[r] := List.getD_eq_getElem _ _ h1
      rw [hg] at hidx
      simp [h1, Nat.not_lt.mpr hidx]
    · simp [h1]
  · intro regs r1 r2 rr hlen h1 hrr
    have hg : get_vector regs r1 = [] := by
      simp [get_vector, show ¬(r1 < regs.length) from by omega]
    simp [vector_add, hg, load_vector, hrr, hlen]

/-- C8 witness: reading register 9 of the 8-register file yields []. -/
theorem c8_witness :
    c8regs.length = 8 ∧ (8 : Nat) ≤ 9 ∧ get_vector c8regs 9 = [] :=
  ⟨rfl, by decide, c8_register_clamping.2.1 c8regs 9 rfl (by decide)⟩

/-- C9: every branch of execute_instruction preserves the data-stack
invariant (each stacked word below 2 to the 32 and depth within capacity);
push at capacity faults to HALTED instead of silently wrapping, and pop on
an empty stack faults to HALTED. -/
theorem c9_stack_invariant_preserved :
    (∀ (i : Instruction) (p : Proc), StackInv p → StackInv (execute_instruction i p).1)
    ∧ (∀ (p : Proc) (v : Nat), p.stack.length = p.stack_size →
        execute_instruction ⟨Op.PUSH, v⟩ p = ({ p with state := ProcessorState.HALTED }, false))
    ∧ (∀ (p : Proc), p.stack = [] →
        execute_instruction ⟨Op.POP, 0⟩ p = ({ p with state := ProcessorState.HALTED }, false)) := by
  refine ⟨fun i p h => execute_instruction_inv i p h, ?_, ?_⟩
  · intro p v h
    simp [execute_instruction, execBody, execPUSH, Op.PUSH, h.symm.le]
  · intro p h
    simp [execute_instruction, execBody, execPOP, Op.POP, h]

/-- C9 witness: invariant preservation for PUSH 7 on the fresh state. -/
theorem c9_witness :
    StackInv (initProc [] []) ∧
    StackInv (execute_instruction ⟨Op.PUSH, 7⟩ (initProc [] [])).1 :=
  ⟨⟨by decide, by decide⟩,
    c9_stack_invariant_preserved.1 ⟨Op.PUSH, 7⟩ (initProc [] []) ⟨by decide, by decide⟩⟩

def irqNoHandler : Proc :=
  { initProc [⟨Op.PUSH, 1⟩, ⟨Op.PUSH, 2⟩] [] with
      interrupts_enabled := true,
      pending_interrupts := [(3, 65)] }

/-- C10: at an instruction boundary with interrupts enabled and no handler
installed for the oldest pending vector, that pending pair is popped and
silently discarded: no handler entry happens, in_interrupt stays false, the
call stack and PC are unchanged, and the processor fetches the instruction
at the unchanged PC. -/
theorem c10_missing_handler_discards_request
    (p : Proc) (v d c : Nat) (restPend : List (Nat × Nat)) (instr : Instruction)
    (hst : p.state ≠ ProcessorState.HALTED)
    (hcur : p.current_instruction = none)
    (hio : p.io_schedule = [])
    (hpc : p.pc < p.instruction_memory.length)
    (hen : p.interrupts_enabled = true)
    (hin : p.in_interrupt = false)
    (hpend : p.pending_interrupts = (v, d) :: restPend)
    (hh : dictGet p.interrupt_handlers v = none)
    (hfetch : p.instruction_memory.get? p.pc = some instr)
    (hcost : instructionCycles instr.opcode = some c)
    (hc2 : 2 ≤ c) :
    stepT p = some ({ p with
      pending_interrupts := restPend,
      current_instruction := some instr,
      remaining_cycles := c - 1,
      cycle_count := p.cycle_count + 1 }, true, []) := by
  have hc1 : ¬(c - 1 = 0) := by omega
  have hnl : ¬(p.pc ≥ p.instruction_memory.length) := Nat.not_le.mpr hpc
  unfold stepT
  rw [if_neg (by simpa using hst)]
  rw [ioPhase_nil p hio]
  simp only [hcur, hnl, if_neg hnl, dispatchInterrupt, hen, hin, hpend, hh,
    hfetch, hcost, tick, Bool.not_false, Bool.and_self, if_true]
  simp [hc1]

/-- C10 witness: pending vector 3 with no handler is discarded. -/
theorem c10_witness :
    irqNoHandler.pending_interrupts = ((3 : Nat), (65 : Nat)) :: [] ∧
    dictGet irqNoHandler.interrupt_handlers 3 = none ∧
    stepT irqNoHandler = some ({ irqNoHandler with
      pending_interrupts := [],
      current_instruction := some ⟨Op.PUSH, 1⟩,
      remaining_cycles := 2 - 1,
      cycle_count := irqNoHandler.cycle_count + 1 }, true, []) :=
  ⟨rfl, by decide,
    c10_missing_handler_discards_request irqNoHandler 3 65 2 [] ⟨Op.PUSH, 1⟩
      (by decide) rfl rfl (by decide) rfl rfl rfl (by decide) rfl rfl (by decide)⟩

end VM
